import Mathlib

/-!
Verification of the computational kernels of the `summer-textbook` repository.

The repository is a sequence of tutorial notebooks on compartmental
infectious-disease modelling.  The pieces of computation implemented in the
repository itself (rather than in the external `summer` library) are:

* the manual explicit-Euler integration loop of notebook 07
  (`manual_calcs`, its flow-rate accumulation and state update);
* the step contact-rate function `step_and_go_back` of notebook 07;
* the single-transition and competing-transition toy models of notebook 04
  together with the closed-form risk/rate/sojourn formulas printed there;
* the three stratified model constructions of notebook 15;
* the Metropolis sampler `sample_with_metropolis` of notebook 20;
* the model factory `get_sir_base_structure` of the transmission notebook.

Python float arithmetic is embedded as exact arithmetic over `ℚ` (for the
executable kernels) and over `ℝ` (for the closed-form formulas involving
`exp` and `log`).
-/

/-! ## Notebook 07: the manual explicit-Euler kernel

The state kept in each row of the `manual_calcs` array: the sizes of the
three compartments, in the column order used by the notebook
(`susceptible`, `infectious`, `recovered`). -/

structure SIRState where
  susceptible : ℚ
  infectious : ℚ
  recovered : ℚ
deriving DecidableEq

/-- The total population `n_pop = compartment_sizes.sum()` used by the
force-of-infection computation of notebook 07. -/
def SIRState.n_pop (s : SIRState) : ℚ :=
  s.susceptible + s.infectious + s.recovered

/-- The `flow_rates` vector of the manual loop of notebook 07: starts at
zeros, the infection magnitude is subtracted from row 0 and added to row 1,
the recovery magnitude is subtracted from row 1 and added to row 2.
`contact_rate` is the value of the contact-rate parameter in force at this
step (a constant in the manual loop of notebook 07). -/
def flow_rates (contact_rate recovery : ℚ) (compartment_sizes : SIRState) :
    SIRState :=
  let n_suscept := compartment_sizes.susceptible
  let n_infect := compartment_sizes.infectious
  let n_pop := compartment_sizes.n_pop
  let force_of_infection := contact_rate * n_infect / n_pop
  let infection_flow_rate := force_of_infection * n_suscept
  let recovery_flow_rate := recovery * n_infect
  { susceptible := 0 - infection_flow_rate
    infectious := 0 + infection_flow_rate - recovery_flow_rate
    recovered := 0 + recovery_flow_rate }

/-- One step of the manual loop of notebook 07:
`manual_calcs[t_idx] = compartment_sizes + flow_rates * time_step`. -/
def euler_update (contact_rate recovery time_step : ℚ) (s : SIRState) :
    SIRState :=
  let rates := flow_rates contact_rate recovery s
  { susceptible := s.susceptible + rates.susceptible * time_step
    infectious := s.infectious + rates.infectious * time_step
    recovered := s.recovered + rates.recovered * time_step }

/-- The initial row of `manual_calcs` of notebook 07:
`[population - seed, seed, 0.0]`. -/
def sir_initial (population seed : ℚ) : SIRState :=
  { susceptible := population - seed, infectious := seed, recovered := 0 }

/-- The `manual_calcs` array of notebook 07: row `t_idx` is the state after
`t_idx` explicit-Euler steps from the initial conditions, each step computed
from the sizes of the previous row only. -/
def manual_calcs (contact_rate recovery time_step population seed : ℚ) :
    ℕ → SIRState
  | 0 => sir_initial population seed
  | t_idx + 1 =>
      euler_update contact_rate recovery time_step
        (manual_calcs contact_rate recovery time_step population seed t_idx)

/-- Claim C1: at every step after the first, the manual explicit-Euler kernel
of notebook 07 computes all flow rates from the compartment sizes of the
previous step only: the infection magnitude is
(contact rate × infectious ÷ total population) × susceptible, the recovery
magnitude is recovery rate × infectious, net inflow minus outflow is
accumulated per compartment, and the next size of every compartment equals
its previous size plus (net flow × step size). -/
theorem manual_calcs_euler_step (contact_rate recovery time_step population
    seed : ℚ) (t_idx : ℕ) :
    (manual_calcs contact_rate recovery time_step population seed
          (t_idx + 1)).susceptible =
        (manual_calcs contact_rate recovery time_step population seed
            t_idx).susceptible +
          (-(contact_rate *
              (manual_calcs contact_rate recovery time_step population seed
                t_idx).infectious /
              (manual_calcs contact_rate recovery time_step population seed
                t_idx).n_pop *
              (manual_calcs contact_rate recovery time_step population seed
                t_idx).susceptible)) * time_step ∧
      (manual_calcs contact_rate recovery time_step population seed
          (t_idx + 1)).infectious =
        (manual_calcs contact_rate recovery time_step population seed
            t_idx).infectious +
          (contact_rate *
              (manual_calcs contact_rate recovery time_step population seed
                t_idx).infectious /
              (manual_calcs contact_rate recovery time_step population seed
                t_idx).n_pop *
              (manual_calcs contact_rate recovery time_step population seed
                t_idx).susceptible -
            recovery *
              (manual_calcs contact_rate recovery time_step population seed
                t_idx).infectious) * time_step ∧
      (manual_calcs contact_rate recovery time_step population seed
          (t_idx + 1)).recovered =
        (manual_calcs contact_rate recovery time_step population seed
            t_idx).recovered +
          recovery *
              (manual_calcs contact_rate recovery time_step population seed
                t_idx).infectious * time_step := by
  refine ⟨?_, ?_, ?_⟩ <;>
    simp only [manual_calcs, euler_update, flow_rates, SIRState.n_pop] <;>
    ring

/-- Claim C2: the manual explicit-Euler kernel of notebook 07 conserves the
total population: the sum of the three compartment sizes after every step
equals the sum before the step, because each flow magnitude is subtracted
from its source row and added to its destination row. -/
theorem manual_calcs_conserves_population (contact_rate recovery time_step
    population seed : ℚ) (t_idx : ℕ) :
    (manual_calcs contact_rate recovery time_step population seed
        (t_idx + 1)).n_pop =
      (manual_calcs contact_rate recovery time_step population seed
        t_idx).n_pop := by
  simp only [manual_calcs, euler_update, flow_rates, SIRState.n_pop]
  ring

/-! ## Notebook 04: the single-transition two-compartment model

`get_single_transition_model` declares compartments `source` and
`destination`, puts the whole population in `source`, and adds one
transition flow with per-capita rate `transition_rate` from `source` to
`destination`.  Its trajectory under the explicit-Euler kernel of
notebook 07 (the "manual" realisation of running the model). -/

structure TransitionState where
  source : ℚ
  destination : ℚ
deriving DecidableEq

/-- One explicit-Euler step of the single-transition model: the flow
magnitude is rate × source size, subtracted from `source` and added to
`destination`, scaled by the step size. -/
def transition_update (transition_rate time_step : ℚ) (s : TransitionState) :
    TransitionState :=
  let transition_flow_rate := transition_rate * s.source
  { source := s.source + (-transition_flow_rate) * time_step
    destination := s.destination + transition_flow_rate * time_step }

/-- The explicit-Euler trajectory of the single-transition model, from the
initial distribution `{source: population}` of
`get_single_transition_model`. -/
def single_transition_calcs (transition_rate time_step population : ℚ) :
    ℕ → TransitionState
  | 0 => { source := population, destination := 0 }
  | n + 1 =>
      transition_update transition_rate time_step
        (single_transition_calcs transition_rate time_step population n)

theorem single_transition_source_closed_form (transition_rate time_step
    population : ℚ) (n : ℕ) :
    (single_transition_calcs transition_rate time_step population n).source =
      population * (1 - transition_rate * time_step) ^ n := by
  induction n with
  | zero => simp [single_transition_calcs]
  | succ n ih =>
      simp only [single_transition_calcs, transition_update, ih, pow_succ]
      ring

theorem single_transition_destination_closed_form (transition_rate time_step
    population : ℚ) (n : ℕ) :
    (single_transition_calcs transition_rate time_step population
        n).destination =
      population * (1 - (1 - transition_rate * time_step) ^ n) := by
  induction n with
  | zero => simp [single_transition_calcs]
  | succ n ih =>
      simp only [single_transition_calcs, transition_update, ih,
        single_transition_source_closed_form, pow_succ]
      ring

/-- Claim C3: for the explicit-Euler kernel applied to the two-compartment
single-flow model with population 1.0, per-capita rate 0.1 and step size
1.0, the destination compartment size at t = 10 (the tenth step) equals
1 − (1 − 0.1)^10, and as the step size tends to 0 (step size 10/n with n
steps reaching t = 10) the value at t = 10 tends to 1 − e^(−1). -/
theorem single_transition_destination_at_ten :
    (single_transition_calcs 0.1 1 1 10).destination =
        1 - (1 - 0.1) ^ 10 ∧
      Filter.Tendsto
        (fun n : ℕ =>
          ((single_transition_calcs 0.1 (10 / (n : ℚ)) 1 n).destination : ℝ))
        Filter.atTop (nhds (1 - Real.exp (-1))) := by
  constructor
  · rw [single_transition_destination_closed_form]
    norm_num
  · have hbase : Filter.Tendsto (fun n : ℕ => (1 - 1 / (n : ℝ)) ^ n)
        Filter.atTop (nhds (Real.exp (-1))) := by
      refine (tendsto_one_plus_div_pow_exp (-1)).congr fun n => ?_
      ring_nf
    have hsub := hbase.const_sub 1
    refine hsub.congr fun n => ?_
    rw [single_transition_destination_closed_form]
    have hq : (0.1 : ℚ) * (10 / (n : ℚ)) = 1 / (n : ℚ) := by
      rcases eq_or_ne (n : ℚ) 0 with h | h
      · simp [h]
      · field_simp
        ring
    rw [hq]
    push_cast
    ring

theorem single_transition_source_nonneg (transition_rate time_step
    population : ℚ) (hr : 0 ≤ transition_rate) (hdt : 0 ≤ time_step)
    (hstep : transition_rate * time_step ≤ 1) (hpop : 0 ≤ population)
    (n : ℕ) :
    0 ≤ (single_transition_calcs transition_rate time_step population
      n).source := by
  rw [single_transition_source_closed_form]
  have hbase : (0 : ℚ) ≤ 1 - transition_rate * time_step := by linarith
  positivity

/-- Claim C6 (amended): in the single-exit two-compartment model with
non-negative rate, non-negative step size, non-negative initial sizes and
rate × step size at most 1, the explicit-Euler trajectory has a
non-increasing source compartment and a non-decreasing destination
compartment at every successive time point. -/
theorem single_transition_monotone (transition_rate time_step population : ℚ)
    (hr : 0 ≤ transition_rate) (hdt : 0 ≤ time_step)
    (hstep : transition_rate * time_step ≤ 1) (hpop : 0 ≤ population)
    (n : ℕ) :
    (single_transition_calcs transition_rate time_step population
          (n + 1)).source ≤
        (single_transition_calcs transition_rate time_step population
          n).source ∧
      (single_transition_calcs transition_rate time_step population
          n).destination ≤
        (single_transition_calcs transition_rate time_step population
          (n + 1)).destination := by
  have hs := single_transition_source_nonneg transition_rate time_step
    population hr hdt hstep hpop n
  constructor
  · simp only [single_transition_calcs, transition_update]
    nlinarith [mul_nonneg (mul_nonneg hr hs) hdt]
  · simp only [single_transition_calcs, transition_update]
    nlinarith [mul_nonneg (mul_nonneg hr hs) hdt]

/-- Witness for claim C6 (amended): the notebook parameters rate = 0.1,
step = 1, population = 1 satisfy the hypotheses, and the first Euler step
moves mass from source to destination. -/
theorem single_transition_monotone_witness :
    (0 : ℚ) ≤ 0.1 ∧ (0 : ℚ) ≤ 1 ∧ (0.1 : ℚ) * 1 ≤ 1 ∧ (0 : ℚ) ≤ 1 ∧
      ((single_transition_calcs 0.1 1 1 1).source ≤
          (single_transition_calcs 0.1 1 1 0).source ∧
        (single_transition_calcs 0.1 1 1 0).destination ≤
          (single_transition_calcs 0.1 1 1 1).destination) :=
  ⟨by norm_num, by norm_num, by norm_num, by norm_num,
    single_transition_monotone 0.1 1 1 (by norm_num) (by norm_num)
      (by norm_num) (by norm_num) 0⟩

/-- Counterexample to claim C6 as stated: with the non-negative rate 3,
step size 1 and non-negative initial sizes (population 1, destination 0),
the explicit-Euler source compartment increases from time point 1 to time
point 2 and the destination compartment decreases, so without a bound on
rate × step size the monotonicity claim is false. -/
theorem single_transition_monotone_counterexample :
    (single_transition_calcs 3 1 1 1).source <
        (single_transition_calcs 3 1 1 2).source ∧
      (single_transition_calcs 3 1 1 2).destination <
        (single_transition_calcs 3 1 1 1).destination := by
  constructor
  · rw [single_transition_source_closed_form,
      single_transition_source_closed_form]
    norm_num
  · rw [single_transition_destination_closed_form,
      single_transition_destination_closed_form]
    norm_num

/-! ## Notebook 04: risk and rate conversions, competing flows

The closed-form formulas printed by the notebook.  They involve `exp` and
`log`, so they are embedded over the reals. -/

/-- The risk formula of notebook 04 for a single constant-rate exit over a
period of time: `risk = 1 - exp(-rate * t)`. -/
noncomputable def risk_from_rate (rate t : ℝ) : ℝ :=
  1 - Real.exp (-(rate * t))

/-- The inverse formula of notebook 04
(`recalculated_rate = -np.log(1. - risk_value) / risk_time`). -/
noncomputable def recalculated_rate (risk_value risk_time : ℝ) : ℝ :=
  -Real.log (1 - risk_value) / risk_time

/-- Claim C4: the risk-to-rate conversion round-trips: for every risk in
[0,1) and every time t > 0, computing the rate as −ln(1 − risk)/t and then
recomputing the risk as 1 − exp(−rate × t) returns the original risk,
exactly over the reals. -/
theorem risk_rate_round_trip (risk_value risk_time : ℝ)
    (h0 : 0 ≤ risk_value) (h1 : risk_value < 1) (ht : 0 < risk_time) :
    risk_from_rate (recalculated_rate risk_value risk_time) risk_time =
      risk_value := by
  unfold risk_from_rate recalculated_rate
  rw [div_mul_cancel₀ _ (ne_of_gt ht), neg_neg,
    Real.exp_log (by linarith : (0 : ℝ) < 1 - risk_value)]
  ring

/-- Witness for claim C4: the round trip at risk 0.5 and time 10. -/
theorem risk_rate_round_trip_witness :
    (0 : ℝ) ≤ 0.5 ∧ (0.5 : ℝ) < 1 ∧ (0 : ℝ) < 10 ∧
      risk_from_rate (recalculated_rate 0.5 10) 10 = 0.5 :=
  ⟨by norm_num, by norm_num, by norm_num,
    risk_rate_round_trip 0.5 10 (by norm_num) (by norm_num) (by norm_num)⟩

/-- The sojourn-time formula printed by notebook 04:
`1. / sum(parameters.values())`. -/
noncomputable def sojourn_time (transition_0 transition_1 : ℝ) : ℝ :=
  1 / (transition_0 + transition_1)

/-- The median-transition-time formula printed by notebook 04:
`-np.log(0.5) / sum(parameters.values())`. -/
noncomputable def median_transition_time (transition_0 transition_1 : ℝ) :
    ℝ :=
  -Real.log 0.5 / (transition_0 + transition_1)

/-- The competing-risk formula printed by notebook 04:
`parameters["transition_0"] / sum(parameters.values())`. -/
noncomputable def risk_of_transition_0 (transition_0 transition_1 : ℝ) : ℝ :=
  transition_0 / (transition_0 + transition_1)

/-- Claim C5: for the two competing constant-rate exits r1 = 0.01 and
r2 = 0.02 of notebook 04, the printed quantities satisfy the closed forms:
the sojourn time is 1/0.03 (approximately 33.33), the median exit time is
−ln(0.5)/0.03 = ln(2)/0.03 (approximately 23.10), and the probability of
exiting via flow 0 is 0.01/0.03 = 1/3 (approximately 0.333). -/
theorem competing_transitions_closed_forms :
    sojourn_time 0.01 0.02 = 1 / 0.03 ∧
      |sojourn_time 0.01 0.02 - 33.33| < 0.005 ∧
      median_transition_time 0.01 0.02 = Real.log 2 / 0.03 ∧
      |median_transition_time 0.01 0.02 - 23.10| < 0.005 ∧
      risk_of_transition_0 0.01 0.02 = 0.01 / 0.03 ∧
      |risk_of_transition_0 0.01 0.02 - 0.333| < 0.0005 := by
  have hlog : Real.log 0.5 = -Real.log 2 := by
    rw [show (0.5 : ℝ) = 2⁻¹ by norm_num, Real.log_inv]
  have hgt := Real.log_two_gt_d9
  have hlt := Real.log_two_lt_d9
  have hm : median_transition_time 0.01 0.02 = Real.log 2 * (100 / 3) := by
    unfold median_transition_time
    rw [hlog]
    ring_nf
  refine ⟨by unfold sojourn_time; norm_num,
    by unfold sojourn_time; rw [abs_lt]; constructor <;> norm_num,
    by rw [hm]; ring_nf,
    ?_,
    by unfold risk_of_transition_0; norm_num,
    by unfold risk_of_transition_0; rw [abs_lt]; constructor <;> norm_num⟩
  rw [hm, abs_lt]
  constructor <;> linarith

/-! ## Notebook 07: the contact-rate spike scenario -/

/-- The step function `step_and_go_back` of notebook 07: jumps from the
base value to the change value at the start time and drops back after the
given duration (`jnp.where(offset > 0.0, jnp.where(offset < duration,
change_val, base_val), base_val)`). -/
def step_and_go_back (time start duration change_val base_val : ℚ) : ℚ :=
  let offset := time - start
  if 0 < offset then (if offset < duration then change_val else base_val)
  else base_val

/-- The contact rate of `get_sir_spike_model` under the notebook parameter
update: base contact rate 1.0, stepping up to 10.0 at time 10.0 for a
duration of 2.0 time units. -/
def spike_contact_rate (time : ℚ) : ℚ :=
  step_and_go_back time 10 2 10 1

/-- Modelled from the spec: the explicit-Euler solver of the external
`summer` library, invoked by `sir_model.run(parameters=parameters,
solver="euler")`, is not part of this repository.  Following the spec
(section 4.1, and the notebook text stating the euler solver undertakes the
same calculations as the manual loop), each step evaluates every flow rate
expression at the compartment sizes and the elapsed time of the previous
step; the time of row `t_idx` is `t_idx * time_step`. -/
def euler_solver_calcs (contact_rate : ℚ → ℚ)
    (recovery time_step population seed : ℚ) : ℕ → SIRState
  | 0 => sir_initial population seed
  | t_idx + 1 =>
      euler_update (contact_rate ((t_idx : ℚ) * time_step)) recovery
        time_step
        (euler_solver_calcs contact_rate recovery time_step population seed
          t_idx)

/-- The explicit-Euler run of the spike scenario of notebook 07:
population 1000, seed 10, recovery 0.333, time step 1.0. -/
def sir_spike_calcs : ℕ → SIRState :=
  euler_solver_calcs spike_contact_rate 0.333 1 1000 10

theorem sir_spike_calcs_succ (t_idx : ℕ) :
    sir_spike_calcs (t_idx + 1) =
      euler_update (spike_contact_rate ((t_idx : ℚ) * 1)) 0.333 1
        (sir_spike_calcs t_idx) :=
  rfl

/-- Claim C7: in the notebook-07 spike scenario (contact rate stepping up
to 10.0 at time 10.0 for 2 time units, step size 1.0), the explicit-Euler
method computes a negative susceptible compartment size at time 12, and the
kernel carries the negative state forward unchanged into the next step
instead of clamping, correcting or rejecting it. -/
theorem sir_spike_negative_susceptible :
    (sir_spike_calcs 12).susceptible < 0 ∧
      (sir_spike_calcs 13).susceptible < 0 := by
  have h0 : sir_spike_calcs 0 = ⟨990, 10, 0⟩ := by
    norm_num [sir_spike_calcs, euler_solver_calcs, sir_initial,
      SIRState.mk.injEq]
  have h1 : sir_spike_calcs 1 = ⟨9801/10, 1657/100,
      333/100⟩ := by
    rw [show (1 : ℕ) = 0 + 1 from rfl, sir_spike_calcs_succ, h0]
    norm_num [euler_update, flow_rates, SIRState.n_pop, spike_contact_rate,
      step_and_go_back, SIRState.mk.injEq]
  have h2 : sir_spike_calcs 2 = ⟨963859743/1000000, 27292447/1000000,
      884781/100000⟩ := by
    rw [show (2 : ℕ) = 1 + 1 from rfl, sir_spike_calcs_succ, h1]
    norm_num [euler_update, flow_rates, SIRState.n_pop, spike_contact_rate,
      step_and_go_back, SIRState.mk.injEq]
  have h3 : sir_spike_calcs 3 = ⟨937553652048738879/1000000000000000, 44510153100261121/1000000000000000,
      17936194851/1000000000⟩ := by
    rw [show (3 : ℕ) = 2 + 1 from rfl, sir_spike_calcs_succ, h2]
    norm_num [euler_update, flow_rates, SIRState.n_pop, spike_contact_rate,
      step_and_go_back, SIRState.mk.injEq]
  have h4 : sir_spike_calcs 4 = ⟨895822995456340567886611006355176641/1000000000000000000000000000000000, 71418928710272478820388993644823359/1000000000000000000000000000000000,
      32758075833386953293/1000000000000000000⟩ := by
    rw [show (4 : ℕ) = 3 + 1 from rfl, sir_spike_calcs_succ, h3]
    norm_num [euler_update, flow_rates, SIRState.n_pop, spike_contact_rate,
      step_and_go_back, SIRState.mk.injEq]
  have h5 : sir_spike_calcs 5 = ⟨831844276806821434158156941037219908590029886550161596908572138312042881/1000000000000000000000000000000000000000000000000000000000000000000000, 111615144099270877101653524079053912862970113449838403091427861687957119/1000000000000000000000000000000000000000000000000000000000000000000000,
      56540579093907688740189534883726178547/1000000000000000000000000000000000000⟩ := by
    rw [show (5 : ℕ) = 4 + 1 from rfl, sir_spike_calcs_succ, h4]
    norm_num [euler_update, flow_rates, SIRState.n_pop, spike_contact_rate,
      step_and_go_back, SIRState.mk.injEq]
  have h6 : sir_spike_calcs 6 = ⟨738997857982874288631703909715067691897527274845241721676415885219341701527050070084353922164197829995728169129358977379714131173069915582780161/1000000000000000000000000000000000000000000000000000000000000000000000000000000000000000000000000000000000000000000000000000000000000000000000, 167293719938160820553255931882881176572103677375962090094138636838568577845949929915646077835802170004271830870641022620285868826930084417219839/1000000000000000000000000000000000000000000000000000000000000000000000000000000000000000000000000000000000000000000000000000000000000000000000,
      93708422078964890815040158402051131530369047778796188229445477942089720627/1000000000000000000000000000000000000000000000000000000000000000000000000⟩ := by
    rw [show (6 : ℕ) = 5 + 1 from rfl, sir_spike_calcs_succ, h5]
    norm_num [euler_update, flow_rates, SIRState.n_pop, spike_contact_rate,
      step_and_go_back, SIRState.mk.injEq]
  have h7 : sir_spike_calcs 7 = ⟨615368157294586573744714904194589574494669403328321278342913654438036383767540117381097645688006759873420262924601341353720044888161650175987723649659803054290866932440171171030038816842443242103311949456834358698022920798075477593279011560543155159365111181244476140833195545346055185921/1000000000000000000000000000000000000000000000000000000000000000000000000000000000000000000000000000000000000000000000000000000000000000000000000000000000000000000000000000000000000000000000000000000000000000000000000000000000000000000000000000000000000000000000000000000000000000000000, 235214611887040982196010712086359862176451024326687157426292701552630559182758555956992210392671117515157217395475198113724760792470631713078069963340196945709133067559828828969961183157556757896688050543165641301977079201924522406720988439456844840634888818755523859166804454653944814079/1000000000000000000000000000000000000000000000000000000000000000000000000000000000000000000000000000000000000000000000000000000000000000000000000000000000000000000000000000000000000000000000000000000000000000000000000000000000000000000000000000000000000000000000000000000000000000000000,
      149417230818372444059274383719050563328879572344991564230793644009333057049701326661910143919322122611422519679923460532555194319367718110934206387/1000000000000000000000000000000000000000000000000000000000000000000000000000000000000000000000000000000000000000000000000000000000000000000000000⟩ := by
    rw [show (7 : ℕ) = 6 + 1 from rfl, sir_spike_calcs_succ, h6]
    norm_num [euler_update, flow_rates, SIRState.n_pop, spike_contact_rate,
      step_and_go_back, SIRState.mk.injEq]
  have h8 : sir_spike_calcs 8 = ⟨470624575008896805736789686333446576181366356647638946209558439776211584866978306037408913933128080186836158410179625763989138455076750982722358308557573925259556641719980582234885362696942626733502576986437340546753769423186460704131835103926466961389261739459632833795786145911450556801359005599006820474331937853639862613825767149665472194755158390850125194204167898563770025235253373253947613120793899650620127306658433775725933733270669275119494953194058552038463371318548688225926895215045135674428429618734474738502405150557620400593654348407153466802035592817876618241/1000000000000000000000000000000000000000000000000000000000000000000000000000000000000000000000000000000000000000000000000000000000000000000000000000000000000000000000000000000000000000000000000000000000000000000000000000000000000000000000000000000000000000000000000000000000000000000000000000000000000000000000000000000000000000000000000000000000000000000000000000000000000000000000000000000000000000000000000000000000000000000000000000000000000000000000000000000000000000000000000000000000000000000000000000000000000000000000000000000000000000000000000000000000000000000000, 301631728414346103132664362822745026384995879906582666136692446597429381875461768167002536086790315069193968517203672731585321881662810545888438006650140491819302046782596417718117563311590972886900302182688500899687863202572673334430075745734403706679320283894777721101667970688785820110333994400993179525668062146360137386174232850334527805244841609149874805795832101436229974764746626746052386879206100349379872693341566224274066266729330724880505046805941447961536628681451311774073104784954864325571570381265525261497594849442379599406345651592846533197964407182123381759/1000000000000000000000000000000000000000000000000000000000000000000000000000000000000000000000000000000000000000000000000000000000000000000000000000000000000000000000000000000000000000000000000000000000000000000000000000000000000000000000000000000000000000000000000000000000000000000000000000000000000000000000000000000000000000000000000000000000000000000000000000000000000000000000000000000000000000000000000000000000000000000000000000000000000000000000000000000000000000000000000000000000000000000000000000000000000000000000000000000000000000000000000000000000000000000000,
      227743696576757091130545950843808397433637763445778387653749113626359033257559925795588549980081604743969873072616701504425539663260438471389203684792285582921141311497423000046997073991466400379597120830874158553558367374240865961438089150339129331931417976645589445102545883399763623088307/1000000000000000000000000000000000000000000000000000000000000000000000000000000000000000000000000000000000000000000000000000000000000000000000000000000000000000000000000000000000000000000000000000000000000000000000000000000000000000000000000000000000000000000000000000000000000000000000000⟩ := by
    rw [show (8 : ℕ) = 7 + 1 from rfl, sir_spike_calcs_succ, h7]
    norm_num [euler_update, flow_rates, SIRState.n_pop, spike_contact_rate,
      step_and_go_back, SIRState.mk.injEq]
  have h9 : sir_spike_calcs 9 = ⟨328669271014696188155318808913643783509209814997455023216943171595035102042388069764831436727174910391131439706484594556130458243862872442076330018596230079986610660383564686932249867867307645544680108527506285668868662911086862747054408395714191326152113237142803504881625835297018572010716882034501754026057059281082126147243835706512555827969933077265885818344613993245229083208502562435017156259597908014745105737376307492782755044162520334026457732294334042417008865723764296372093054677245617456424265768210049297648173710069152570332018280416407264200581400905203969970986033719893251501110038170991519367757600429912540867272025402026625681586259335201993840038685878457296146661153219056989705049840493684463089684089246209640051843807312425050087532774140718886720079678424527367116577084359846386715824688957046508066050357062311420670620749593232465183896560201078784742033927776387253015066243787672527535155074261790828127568815478419471504592341105174149554833383621134624243263086224182348070155773660700039600980633789402957689787905578437207701690550986832836307613725575013922785771711483785478198959637086726668679030009334453934081/1000000000000000000000000000000000000000000000000000000000000000000000000000000000000000000000000000000000000000000000000000000000000000000000000000000000000000000000000000000000000000000000000000000000000000000000000000000000000000000000000000000000000000000000000000000000000000000000000000000000000000000000000000000000000000000000000000000000000000000000000000000000000000000000000000000000000000000000000000000000000000000000000000000000000000000000000000000000000000000000000000000000000000000000000000000000000000000000000000000000000000000000000000000000000000000000000000000000000000000000000000000000000000000000000000000000000000000000000000000000000000000000000000000000000000000000000000000000000000000000000000000000000000000000000000000000000000000000000000000000000000000000000000000000000000000000000000000000000000000000000000000000000000000000000000000000000000000000000000000000000000000000000000000000000000000000000000000000000000000000000000000000000000000000000000000000000000000000000000000000000000000000000000000000000000000000000000000000000000000000000000000000000000000000000000000000000000000000000000000000000000000000, 343143666846569468370958007422573725270948793547874561305789130061661880535523235639968168775842309946857095704669880919826089906282973174753616440396987553316420446540407705920619909558466160104384970014784284977976911268215571071142287230617122907592255131674646068888972847063852126804234897829967517191895476024179948103160144754326046412883534666887205871325373916976506335194836810858547398909626460568911396655740950954533980889016612534588334087119287455411799436925312416807140601429364412723160401294828530790273127205066535023065668617603174840244496451503148943903266966280106748498889961829008480632242399570087459132727974597973374318413740664798006159961314121542703853338846780943010294950159506315536910315910753790359948156192687574949912467225859281113279920321575472632883422915640153613284175311042953491933949642937688579329379250406767534816103439798921215257966072223612746984933756212327472464844925738209171872431184521580528495407658894825850445166616378865375756736913775817651929844226339299960399019366210597042310212094421562792298309449013167163692386274424986077214228288516214521801040362913273331320969990665546065919/1000000000000000000000000000000000000000000000000000000000000000000000000000000000000000000000000000000000000000000000000000000000000000000000000000000000000000000000000000000000000000000000000000000000000000000000000000000000000000000000000000000000000000000000000000000000000000000000000000000000000000000000000000000000000000000000000000000000000000000000000000000000000000000000000000000000000000000000000000000000000000000000000000000000000000000000000000000000000000000000000000000000000000000000000000000000000000000000000000000000000000000000000000000000000000000000000000000000000000000000000000000000000000000000000000000000000000000000000000000000000000000000000000000000000000000000000000000000000000000000000000000000000000000000000000000000000000000000000000000000000000000000000000000000000000000000000000000000000000000000000000000000000000000000000000000000000000000000000000000000000000000000000000000000000000000000000000000000000000000000000000000000000000000000000000000000000000000000000000000000000000000000000000000000000000000000000000000000000000000000000000000000000000000000000000000000000000000000000000000000000000000000,
      328187062138734343473723183663782491219841391454670415477267698343303017422088694595200394496982779662011464588845524524043451849854154383170053541006782366696968893076027607147130222574226194350934921457709429353154425820697566181803304373668685766255631631182550426229401317639129301185048220135530728782047464694737925749596019539161397759146532255846908310330012089778264581596660626706435444830775631416343497606882741552683264066820867131385208180586378502171191697350923286820766343893389969820415332936961419912078699084864312406602313101980417895554922147591647086125747/1000000000000000000000000000000000000000000000000000000000000000000000000000000000000000000000000000000000000000000000000000000000000000000000000000000000000000000000000000000000000000000000000000000000000000000000000000000000000000000000000000000000000000000000000000000000000000000000000000000000000000000000000000000000000000000000000000000000000000000000000000000000000000000000000000000000000000000000000000000000000000000000000000000000000000000000000000000000000000000000000000000000000000000000000000000000000000000000000000000000000000000000000000000000000000000000000⟩ := by
    rw [show (9 : ℕ) = 8 + 1 from rfl, sir_spike_calcs_succ, h8]
    norm_num [euler_update, flow_rates, SIRState.n_pop, spike_contact_rate,
      step_and_go_back, SIRState.mk.injEq]
  have h10 : sir_spike_calcs 10 = ⟨215888492178924428242695265359344868881970826335143168899419945083774825012989832017963968668814328698917796577037414774182342361246732537709730063295220679829277435315780480346338842160429371141344572754795401359417216972793913646224046517248267043155936960588217164048532239131240022054092637007697262973812019061971190173045876049238512264718936192429304841721503286078396154837122546030868099063283318772670055252519159682849954194852894857584109607769978970323151073282490003446974978450073595107910389172131832644913723843971970224323681201742889334523528100066923145426934083156573796406673830424111292985368644518444929816456231109864008772435437859027634120456776040051313322234563032444795157458011000142070860977325054578479858021363676132014439321876660316248425104200010670592982594220181294516368005789092769318551741862075836221833901753107926877315550400698448394946186320906395061908784432087076566478163756738064039552594635708615876415559735840387650738477381874492510987657331285576301854441813037461631607019612932481106305913328235166346526964868298576440094023160393955706448733637496404111517161804067816465688367508968622255586413498744608613815508337956599187989677853891514444922878227146347277132756578506008661703176406334060991186272865442534069867794126427724006896173994259478399077646421048467014601278999283118462030306586870673493828560399005448743086455294224758584162980194143909302672976278162744952799618022187187559423573934255676244788493208027857468342744398566337987788658752326218408524926016941566614660045671075904031528527629231900172513963544535817141009387216517802571860600033743445629583781089834376290035602481171806393689087317176138080373604243772511129357309348333177150222792793272078504836434508501519655919589954348121511278206093012385297744292719053998010364372287429181100803848501685392979829475908180602049534097916013940830738651754279300739931709920144234684534136342537396180241421742248573657743707095562088755414161356596349803301069957907141991945036646229804135597878727782619164653706436847456897984451478075162322156946795927291277537697153375440878569813917392130085612258620443027578422100273475370924970233801309575661157867059075087982185592398928658060828811602796534760163357317455528896209305375422141066073107480257893314561/1000000000000000000000000000000000000000000000000000000000000000000000000000000000000000000000000000000000000000000000000000000000000000000000000000000000000000000000000000000000000000000000000000000000000000000000000000000000000000000000000000000000000000000000000000000000000000000000000000000000000000000000000000000000000000000000000000000000000000000000000000000000000000000000000000000000000000000000000000000000000000000000000000000000000000000000000000000000000000000000000000000000000000000000000000000000000000000000000000000000000000000000000000000000000000000000000000000000000000000000000000000000000000000000000000000000000000000000000000000000000000000000000000000000000000000000000000000000000000000000000000000000000000000000000000000000000000000000000000000000000000000000000000000000000000000000000000000000000000000000000000000000000000000000000000000000000000000000000000000000000000000000000000000000000000000000000000000000000000000000000000000000000000000000000000000000000000000000000000000000000000000000000000000000000000000000000000000000000000000000000000000000000000000000000000000000000000000000000000000000000000000000000000000000000000000000000000000000000000000000000000000000000000000000000000000000000000000000000000000000000000000000000000000000000000000000000000000000000000000000000000000000000000000000000000000000000000000000000000000000000000000000000000000000000000000000000000000000000000000000000000000000000000000000000000000000000000000000000000000000000000000000000000000000000000000000000000000000000000000000000000000000000000000000000000000000000000000000000000000000000000000000000000000000000000000000000000000000000000000000000000000000000000000000000000000000000000000000000000000000000000000000000000000000000000000000000000000000000000000000000000000000000000000000000000000000000000000000000000000000000000000000000000000000000000000000000000000000000000000000000000000000000000000000000000000000000000000000000000000000000000000000000000000000000000000000000000000000000000000000000000000000000000000000000000000000000000000000000000000000000000000000000000000000000000000000000000000000000000000000000000000000000000000000000000000000000000000000000000000000000000000000000000000000000000000000000000000000000000000000000000000000000000000000, 341657604622433595316052534505155589382961833958744186708484576262388751346592235918726236631847402426767325964461990355472117850106883011927262121045800098219385662910236146434964505382375203192960310772572002389762045754192735005282267461287545262360210449381575268782038485157367918535048921879392825019239322727238961359005776208409516520644314507650347292797135109790162653946336169246800172269035438441538952054236362096606966102283706037012766960632919804853528016870457674935480857380558085634861864259728846689846625711876561206393138046614835548120132433990881170127531017072150656343195812286828882964094636424715946292345353349010857579532786499594629828276106357474966294603600989501182414323585884254855347887476664409330279242624158905527239826537128543140852682332904697020267225948910534330408363832329927168634252906825913481249414956506619533590687153848510840372910977043141893345232627094218385191042882991112306213885779845697807595469513747635341063282134871345318885349276427076420052920059591551481580106938119390078604786044322453243637698085180038894396412210222523929838928342427696452723091755082063514981749484139750904462559501255391386184491662043400812010322146108485555077121772853652722867243421493991338296823593665939008813727134557465930132205873572275993103826005740521600922353578951532985398721000716881537969693413129326506171439600994551256913544705775241415837019805856090697327023721837255047200381977812812440576426065744323755211506791972142531657255601433662012211341247673781591475073983058433385339954328924095968471472370768099827486036455464182858990612783482197428139399966256554370416218910165623709964397518828193606310912682823861919626395756227488870642690651666822849777207206727921495163565491498480344080410045651878488721793906987614702255707280946001989635627712570818899196151498314607020170524091819397950465902083986059169261348245720699260068290079855765315465863657462603819758578257751426342256292904437911244585838643403650196698930042092858008054963353770195864402121272217380835346293563152543102015548521924837677843053204072708722462302846624559121430186082607869914387741379556972421577899726524629075029766198690424338842132940924912017814407601071341939171188397203465239836642682544471103790694624577858933926892519742106685439/1000000000000000000000000000000000000000000000000000000000000000000000000000000000000000000000000000000000000000000000000000000000000000000000000000000000000000000000000000000000000000000000000000000000000000000000000000000000000000000000000000000000000000000000000000000000000000000000000000000000000000000000000000000000000000000000000000000000000000000000000000000000000000000000000000000000000000000000000000000000000000000000000000000000000000000000000000000000000000000000000000000000000000000000000000000000000000000000000000000000000000000000000000000000000000000000000000000000000000000000000000000000000000000000000000000000000000000000000000000000000000000000000000000000000000000000000000000000000000000000000000000000000000000000000000000000000000000000000000000000000000000000000000000000000000000000000000000000000000000000000000000000000000000000000000000000000000000000000000000000000000000000000000000000000000000000000000000000000000000000000000000000000000000000000000000000000000000000000000000000000000000000000000000000000000000000000000000000000000000000000000000000000000000000000000000000000000000000000000000000000000000000000000000000000000000000000000000000000000000000000000000000000000000000000000000000000000000000000000000000000000000000000000000000000000000000000000000000000000000000000000000000000000000000000000000000000000000000000000000000000000000000000000000000000000000000000000000000000000000000000000000000000000000000000000000000000000000000000000000000000000000000000000000000000000000000000000000000000000000000000000000000000000000000000000000000000000000000000000000000000000000000000000000000000000000000000000000000000000000000000000000000000000000000000000000000000000000000000000000000000000000000000000000000000000000000000000000000000000000000000000000000000000000000000000000000000000000000000000000000000000000000000000000000000000000000000000000000000000000000000000000000000000000000000000000000000000000000000000000000000000000000000000000000000000000000000000000000000000000000000000000000000000000000000000000000000000000000000000000000000000000000000000000000000000000000000000000000000000000000000000000000000000000000000000000000000000000000000000000000000000000000000000000000000000000000000000000000000000000000000000000000000000000000,
      442453903198641976441252200135499541735067339706112644392095478653836423640417932063309794699338268874314877458500594870345539788646384450363007815658979221951336901773983373218696652457195425665695116472632596250820737273013351348493686021464187694483852590030207567169429275711392059410858441112909912006948658210789848467948347742351971214636749299920347865481361604131441191216541284722331728667681242785790992693244478220543079702863399105403123431597101224823320909847052321617544164169368319257227746568139320665239650444151468569283180751642275117356339465942195684445534899771275547250130357289059824050536719056839123891198415541125133648031775641377736051267117602473720383161835978054022428218403115603073791135198281012189862736012164962458320851586211140610722213467084632386750179830908171153223630378577303512814005231098250296916683290385453589093762445453040764680902702050463044745982940818705048330793360270823654233519584445686315988970750411977008198240483254162170126993392287347278092638127370986886812873448948128815089300627442380409835337046521384665509564629383520363712338020075899435759746440850120019329883006891626839951027/1000000000000000000000000000000000000000000000000000000000000000000000000000000000000000000000000000000000000000000000000000000000000000000000000000000000000000000000000000000000000000000000000000000000000000000000000000000000000000000000000000000000000000000000000000000000000000000000000000000000000000000000000000000000000000000000000000000000000000000000000000000000000000000000000000000000000000000000000000000000000000000000000000000000000000000000000000000000000000000000000000000000000000000000000000000000000000000000000000000000000000000000000000000000000000000000000000000000000000000000000000000000000000000000000000000000000000000000000000000000000000000000000000000000000000000000000000000000000000000000000000000000000000000000000000000000000000000000000000000000000000000000000000000000000000000000000000000000000000000000000000000000000000000000000000000000000000000000000000000000000000000000000000000000000000000000000000000000000000000000000000000000000000000000000000000000000000000000000000000000000000000000000000000000000000000000000000000000000000000000000000000000000000000000000000000000000000000000000000000000000000000000000⟩ := by
    rw [show (10 : ℕ) = 9 + 1 from rfl, sir_spike_calcs_succ, h9]
    norm_num [euler_update, flow_rates, SIRState.n_pop, spike_contact_rate,
      step_and_go_back, SIRState.mk.injEq]
  have h11 : sir_spike_calcs 11 = ⟨142128547075524118417936650266461030014717999991090092723113709832581214277060086218350209184949239977097905084834037636867181020583075650101630097965118319260709866856177796556349170777322837748457333101760060126723740990034033843404798313513213031732075309650108754404772786074505619380579871887250306838177862774893214241270609200454876570278692484041593966667108614067046580899870472473134921281128573710737820016874540260325755114284232263239606741551530835306674958646470848180977921525313388389857167130927998374913293383964817696372540413394250534344912513517192176385828707138758889712130790233045171541581796455827729816925851069648485700289711963613803400035239465528074106057808212358555072353538750714787037148228058598242344271560407768545238279724069665012343922786745472697889839942209593883330129688107137631767169787977243450863829636247074452508388990840514887944062263808229407829089090336337530129525186614220655355189848123140147078671568511072436493142728811525235677101347962654192237960446848242821375898345141009206112148689282839087435119508856605975681105060438273566074685477434091654845009213407841681984702368456402196334372788252949249166154047780489926206948054863694582816895999596640958088801362863818787243073779025567445388060437857937529354874296425593535547237037330750430663904113982385745665194469406635887056125571836021202881870500616833033267505129478616244830271329174791995533425180285818194781145005057760262814346003901268949252743062240265402828207049385731487611244773919362981783004117957509238718010320569018879874746062620115778355396589124795170469842229786942862890606981510578447367518066150918371755060911643544130526207932950522437962426900204847084125396834468658356163310963437021464581080328040527399516798837250920882406708478458251176107282280364767715543008686317064104244196648300853204715153198142662570895078615272906692409591398970244971551604008894913270997752527086575498662768720161546661417941450070383235510715504295603104550423126413623714528243566640038758367903487900380223935165966264748030634042282467906181978695513940470286440970361433370522738218819885360521053739036371318763951343660370096036481300714679899897252781661765990926670978392749874419501969439691115013536164179427308196316866334769140794911984771972792561439331561340022695704168310032731425871333780868432571010846471421134353168588468279978650834233917729405123813276372300547271816006310372113868949786654412890943341305949768298100055520582450544594985261780520966454868535148945204596233102093438079026477713257786236083206657722112965438631738108409160364054110681495260117326834198064225603715070761804575750764702790741124853353741740030863464464431629740405891013488494386209003234856021367454074989354699058125539545697032407881375929778782294416110129578549811892288122903186236304805900364958749199508582535391330777235893152990586970739082730628067347826018274366787478338338798994400540378120003627911840479067822167789751020082434960943357274375636534086031965896618025136923936679773285397871446211847485006287009940277529302604732537411001428630455431475623953315706125317889453739899230591311340773465585197846029336578839558900718888881227419020226671895955824168144624879623798727850463162013809309027073752670239729351102839712796668792743923610716256586127553283697406323040444022940783333727172863493231602181966040465718325808014789734607872589403355048635914698706977963197952112430088017793568062526169700935049793203978646294052052001677684913566068093113044166200818158433996744349089728654351087393757515674987008808864344152188756004110523533848387753725496287171328083493940881700789633995776327279975562346687853966062747845258664563688634199375592608492441570451792547348661726068657693204019944306721351594026996668870273491581122355672905580664672828380116008014368386250559371351983394436288363200178736024153459088731904054569758103930982420081037404094113440986876294897406144782211045103628390586721901978686116965257036517007435749727229158234708246291744594237878326753323716777013110879427833105704829452566810187058823161109871595039704294005430323185557546405702535673379345296115823928009417782265270111999862025037564478302052929006945895556164640666776080095385790903654192916854895534740198377817374121388545247810715392710579723466636352125015499453226819053213105866459001225894353921601619075754048434935792873437213355960371196280258801918889884201466619943954799701465708913860463844089946446681227222201616747896984859578500151027303717027687715945593150016216212718442992911865765984791312994255258894622721/1000000000000000000000000000000000000000000000000000000000000000000000000000000000000000000000000000000000000000000000000000000000000000000000000000000000000000000000000000000000000000000000000000000000000000000000000000000000000000000000000000000000000000000000000000000000000000000000000000000000000000000000000000000000000000000000000000000000000000000000000000000000000000000000000000000000000000000000000000000000000000000000000000000000000000000000000000000000000000000000000000000000000000000000000000000000000000000000000000000000000000000000000000000000000000000000000000000000000000000000000000000000000000000000000000000000000000000000000000000000000000000000000000000000000000000000000000000000000000000000000000000000000000000000000000000000000000000000000000000000000000000000000000000000000000000000000000000000000000000000000000000000000000000000000000000000000000000000000000000000000000000000000000000000000000000000000000000000000000000000000000000000000000000000000000000000000000000000000000000000000000000000000000000000000000000000000000000000000000000000000000000000000000000000000000000000000000000000000000000000000000000000000000000000000000000000000000000000000000000000000000000000000000000000000000000000000000000000000000000000000000000000000000000000000000000000000000000000000000000000000000000000000000000000000000000000000000000000000000000000000000000000000000000000000000000000000000000000000000000000000000000000000000000000000000000000000000000000000000000000000000000000000000000000000000000000000000000000000000000000000000000000000000000000000000000000000000000000000000000000000000000000000000000000000000000000000000000000000000000000000000000000000000000000000000000000000000000000000000000000000000000000000000000000000000000000000000000000000000000000000000000000000000000000000000000000000000000000000000000000000000000000000000000000000000000000000000000000000000000000000000000000000000000000000000000000000000000000000000000000000000000000000000000000000000000000000000000000000000000000000000000000000000000000000000000000000000000000000000000000000000000000000000000000000000000000000000000000000000000000000000000000000000000000000000000000000000000000000000000000000000000000000000000000000000000000000000000000000000000000000000000000000000000000000000000000000000000000000000000000000000000000000000000000000000000000000000000000000000000000000000000000000000000000000000000000000000000000000000000000000000000000000000000000000000000000000000000000000000000000000000000000000000000000000000000000000000000000000000000000000000000000000000000000000000000000000000000000000000000000000000000000000000000000000000000000000000000000000000000000000000000000000000000000000000000000000000000000000000000000000000000000000000000000000000000000000000000000000000000000000000000000000000000000000000000000000000000000000000000000000000000000000000000000000000000000000000000000000000000000000000000000000000000000000000000000000000000000000000000000000000000000000000000000000000000000000000000000000000000000000000000000000000000000000000000000000000000000000000000000000000000000000000000000000000000000000000000000000000000000000000000000000000000000000000000000000000000000000000000000000000000000000000000000000000000000000000000000000000000000000000000000000000000000000000000000000000000000000000000000000000000000000000000000000000000000000000000000000000000000000000000000000000000000000000000000000000000000000000000000000000000000000000000000000000000000000000000000000000000000000000000000000000000000000000000000000000000000000000000000000000000000000000000000000000000000000000000000000000000000000000000000000000000000000000000000000000000000000000000000000000000000000000000000000000000000000000000000000000000000000000000000000000000000000000000000000000000000000000000000000000000000000000000000000000000000000000000000000000000000000000000000000000000000000000000000000000000000000000000000000000000000000000000000000000000000000000000000000000000000000000000000000000000000000000000000000000000000000000000000000000000000000000000000000000000000000000000000000000000000000000000000000000000000000000000000000000000000000000000000000000000000000000000000000000000000000000000000000000000000000000000000000000000000000000000000000000000000000000000000000000000000000000000000000000000000000000000000000000000000000000000000000000000000000000000000000000000000000000000000000000000000000000000000000000000000000000000000000000000000000000000000000000000000000000000000000000000000000000000000000000000000000000000000000000000000000000000000, 301645567386563517900565655607822616985688369594535448710865447618206907884106767157404159317307306140473697910499524704415063946684947856563583800067651026080897805620730193462110996473150793922591766938340866826664760500806434051342520600413846701418122020675619113921379122656698804336390396014001970423466784546146363158232119579792783213710001484990492519350083790241388064119458298445348892685601382502438716255820272940961045470791894521032018428960605644853779301888614424447962788797592449836506085502442975012128129809828818852615363865440734110774743920021648709516168564404939394475454646986380986380837970557902736176524730724005765077694094490643448815881699514959041734677356680083528755458304034225272340870043931141260810004633582353455870006452855389511029920529312630807610993985895027031420254777149693108263618762951477062963431892850767653712149741474890237530855678785941296940965504022582699271064173078915292442066602742556167003066332998987986734543837022154603007083950699782081791779045936783648445052595517105082623156930515403572598189982257056406975325044174105601576613364461585990638454791299711148196492046433433912528567897829005419234410228759057603393614670482179727342422450043092685196406577778682097104083964283674864676968426334426315911101147674838558749188902757655876228952144226753770197031437354642560799966521591913070563040112251981398180284483498228363696001075475129802256675920342375874501127796330573194473704116205871240261825176033011134129926835336859062322378590605267748255796245684032443963784887899257162624253637914106979091753271205631937486283713313485393538972829725988947283881036763928932826794714586667398572258143669131542801983312971399121950587178526289634860879036722580677529452363290478645904424617547003580848934150514873128041567195080213621908327285396853202323484902760382657568062279281477911599775990759735604226379635204762174845655394513116878952114874978377429357624720007228366610713012751792320042200227450981379948833169569454568789453636554486018786190128451231957894518277205455116394780059731122871299567769103317708979082790640651289825529214606218797455143084236209419663215730697202481533787141156188797912788068906013371396823876093368714754024824040131061598233807285382926120832355246432180090360018953085912309481438659977304295831689967268574128666219131567428989153528578865646831411531720021349165766082270594876186723627699452728183993689627886131050213345587109056658694050231701899944479417549455405014738219479033545131464851054795403766897906561920973522286742213763916793342277887034561368261891590839635945889318504739882673165801935774396284929238195424249235297209258875146646258259969136535535568370259594108986511505613790996765143978632545925010645300941874460454302967592118624070221217705583889870421450188107711877096813763695194099635041250800491417464608669222764106847009413029260917269371932652173981725633212521661661201005599459621879996372088159520932177832210248979917565039056642725624363465913968034103381974863076063320226714602128553788152514993712990059722470697395267462588998571369544568524376046684293874682110546260100769408688659226534414802153970663421160441099281111118772580979773328104044175831855375120376201272149536837986190690972926247329760270648897160287203331207256076389283743413872446716302593676959555977059216666272827136506768397818033959534281674191985210265392127410596644951364085301293022036802047887569911982206431937473830299064950206796021353705947947998322315086433931906886955833799181841566003255650910271345648912606242484325012991191135655847811243995889476466151612246274503712828671916506059118299210366004223672720024437653312146033937252154741335436311365800624407391507558429548207452651338273931342306795980055693278648405973003331129726508418877644327094419335327171619883991985631613749440628648016605563711636799821263975846540911268095945430241896069017579918962595905886559013123705102593855217788954896371609413278098021313883034742963482992564250272770841765291753708255405762121673246676283222986889120572166894295170547433189812941176838890128404960295705994569676814442453594297464326620654703884176071990582217734729888000137974962435521697947070993054104443835359333223919904614209096345807083145104465259801622182625878611454752189284607289420276533363647874984500546773180946786894133540998774105646078398380924245951565064207126562786644039628803719741198081110115798533380056045200298534291086139536155910053553318772777798383252103015140421499848972696282972312284054406849983783787281557007088134234015208687005744741105377279/1000000000000000000000000000000000000000000000000000000000000000000000000000000000000000000000000000000000000000000000000000000000000000000000000000000000000000000000000000000000000000000000000000000000000000000000000000000000000000000000000000000000000000000000000000000000000000000000000000000000000000000000000000000000000000000000000000000000000000000000000000000000000000000000000000000000000000000000000000000000000000000000000000000000000000000000000000000000000000000000000000000000000000000000000000000000000000000000000000000000000000000000000000000000000000000000000000000000000000000000000000000000000000000000000000000000000000000000000000000000000000000000000000000000000000000000000000000000000000000000000000000000000000000000000000000000000000000000000000000000000000000000000000000000000000000000000000000000000000000000000000000000000000000000000000000000000000000000000000000000000000000000000000000000000000000000000000000000000000000000000000000000000000000000000000000000000000000000000000000000000000000000000000000000000000000000000000000000000000000000000000000000000000000000000000000000000000000000000000000000000000000000000000000000000000000000000000000000000000000000000000000000000000000000000000000000000000000000000000000000000000000000000000000000000000000000000000000000000000000000000000000000000000000000000000000000000000000000000000000000000000000000000000000000000000000000000000000000000000000000000000000000000000000000000000000000000000000000000000000000000000000000000000000000000000000000000000000000000000000000000000000000000000000000000000000000000000000000000000000000000000000000000000000000000000000000000000000000000000000000000000000000000000000000000000000000000000000000000000000000000000000000000000000000000000000000000000000000000000000000000000000000000000000000000000000000000000000000000000000000000000000000000000000000000000000000000000000000000000000000000000000000000000000000000000000000000000000000000000000000000000000000000000000000000000000000000000000000000000000000000000000000000000000000000000000000000000000000000000000000000000000000000000000000000000000000000000000000000000000000000000000000000000000000000000000000000000000000000000000000000000000000000000000000000000000000000000000000000000000000000000000000000000000000000000000000000000000000000000000000000000000000000000000000000000000000000000000000000000000000000000000000000000000000000000000000000000000000000000000000000000000000000000000000000000000000000000000000000000000000000000000000000000000000000000000000000000000000000000000000000000000000000000000000000000000000000000000000000000000000000000000000000000000000000000000000000000000000000000000000000000000000000000000000000000000000000000000000000000000000000000000000000000000000000000000000000000000000000000000000000000000000000000000000000000000000000000000000000000000000000000000000000000000000000000000000000000000000000000000000000000000000000000000000000000000000000000000000000000000000000000000000000000000000000000000000000000000000000000000000000000000000000000000000000000000000000000000000000000000000000000000000000000000000000000000000000000000000000000000000000000000000000000000000000000000000000000000000000000000000000000000000000000000000000000000000000000000000000000000000000000000000000000000000000000000000000000000000000000000000000000000000000000000000000000000000000000000000000000000000000000000000000000000000000000000000000000000000000000000000000000000000000000000000000000000000000000000000000000000000000000000000000000000000000000000000000000000000000000000000000000000000000000000000000000000000000000000000000000000000000000000000000000000000000000000000000000000000000000000000000000000000000000000000000000000000000000000000000000000000000000000000000000000000000000000000000000000000000000000000000000000000000000000000000000000000000000000000000000000000000000000000000000000000000000000000000000000000000000000000000000000000000000000000000000000000000000000000000000000000000000000000000000000000000000000000000000000000000000000000000000000000000000000000000000000000000000000000000000000000000000000000000000000000000000000000000000000000000000000000000000000000000000000000000000000000000000000000000000000000000000000000000000000000000000000000000000000000000000000000000000000000000000000000000000000000000000000000000000000000000000000000000000000000000000000000000000000000000000000000000000000000000000000000000000000000000000000000000000000000000000000000000000000000000000000000000000000000000000000000000000000000000000000000000000000000000000000000,
      556225885537912363681497694125716352999593630414374458566020842549211877838833146624245631497743453882428397004666437658717755032731976493334786101967230654658392327523092009981539832749526368328950899959899073046611498509159532105252681086072940266849802669674272131673848091268795576283029732098747722738355352678960422600497271219752340216011306030967913513982807595691565354980671229081516186033270043786823463727305186798713199414923873215728374829487863519839545739464914727371059289677094161773636747366629026612958576806206363451012095721165015354880343566461159114098002728456301715812414562780573842077580232986269534006549418206345749222016193545742747784083061019512884159264835107557916172188157215059940621981728010260496845723806009877998891713823074945476626156683941896494499166071895379085249615534743169259969211449071279486172738470902157893779461267684594874525082057405829295229945405641079770599410640306864052202743549134303685918262098489939576772313434166320161315814701337563725970260507214973530179049059341885711264694380201757339966690508886337617343569895387620832348701158104322354516535995292447169818805585110163891137059313918045331599435723460452470399437274654125689840681550360266356714792059357499115652842256690757689934971135807636154734024555899567905703574059911593693107143741790860484137774093238721552143907906572065726555089387131185568552210387023155391473727595350078202209898899371805930717727198611666542711949879892859810485431761726723463041866115277409450066376635475369269961199636358458317318204791531723957501000299465777242552850139669572892043874056899571743570420188763432605348600897085152695418144373769788470901533923380346019235589786823753793924015987005052008975809999840397857889467308668993954578776545202075536744357371026875695851150524555018662548664028286082693432318448938764137716784522575859517505145393967357703364028965824992853602740596591969850050132597935047071979606559831224971971345537177824444447084268253415515500743704016921716682302796805475222845906383648387818170315756529796852971177657800970946721736716956212004579946847925978187436251965508420681491117879392471816385440608932701481984912144163911304834430269327995701932197731156756865744005736268753924865602013287308877562301309984427024997655209074121526251187/1000000000000000000000000000000000000000000000000000000000000000000000000000000000000000000000000000000000000000000000000000000000000000000000000000000000000000000000000000000000000000000000000000000000000000000000000000000000000000000000000000000000000000000000000000000000000000000000000000000000000000000000000000000000000000000000000000000000000000000000000000000000000000000000000000000000000000000000000000000000000000000000000000000000000000000000000000000000000000000000000000000000000000000000000000000000000000000000000000000000000000000000000000000000000000000000000000000000000000000000000000000000000000000000000000000000000000000000000000000000000000000000000000000000000000000000000000000000000000000000000000000000000000000000000000000000000000000000000000000000000000000000000000000000000000000000000000000000000000000000000000000000000000000000000000000000000000000000000000000000000000000000000000000000000000000000000000000000000000000000000000000000000000000000000000000000000000000000000000000000000000000000000000000000000000000000000000000000000000000000000000000000000000000000000000000000000000000000000000000000000000000000000000000000000000000000000000000000000000000000000000000000000000000000000000000000000000000000000000000000000000000000000000000000000000000000000000000000000000000000000000000000000000000000000000000000000000000000000000000000000000000000000000000000000000000000000000000000000000000000000000000000000000000000000000000000000000000000000000000000000000000000000000000000000000000000000000000000000000000000000000000000000000000000000000000000000000000000000000000000000000000000000000000000000000000000000000000000000000000000000000000000000000000000000000000000000000000000000000000000000000000000000000000000000000000000000000000000000000000000000000000000000000000000000000000000000000000000000000000000000000000000000000000000000000000000000000000000000000000000000000000000000000000000000000000000000000000000000000000000000000000000000000000000000000000000000000000000000000000000000000000000000000000000000000000000000000000000000000000000000000000000000000000000000000000000000000000000000000000000000000000000000000000000000000000000000000000000000000000000000000000000000000000000000000000000000000000000000000000000000000000000000000000000000⟩ := by
    rw [show (11 : ℕ) = 10 + 1 from rfl, sir_spike_calcs_succ, h10]
    norm_num [euler_update, flow_rates, SIRState.n_pop, spike_contact_rate,
      step_and_go_back, SIRState.mk.injEq]
  have h12 : sir_spike_calcs 12 = ⟨(-28659591516871963832170734824679960494089350622560294263122140520485964151445440039769870908331116671380656797315128119919081097083860795787396980100491552688066977252457079533798630175102464507841738088067666577263576134956106941148582660223969914439449590672216590239829375426602456249209114116857174974088479310277998815217769096001647592635233065643459851931536828045748295690431800844690174520836237313921278734237602141088476442583088945459919936424801618077822838122321105359065871719450388259179987742803812528418357750776801884121448818244772133120867602510332723439834310704466165110697852438016184477417971329812687914536583742144599564233392239480682499619649221268054372420030264634928921627893996631615297961329943622289511967082594658466082281066759877933941845066614947646359660346186653085958859456236713642315810634269548647916255731156295389532897462269519061353679738860011546335809862123593281511360742504731509069427269255314591981732522370541790916634476069855769955234267283334144726071625911519385459976943988313033769622345420073655354029869613660815852188086026128264934745808311585048684846721522220215466507820455147548172354844637119862268738340370093349862369946661419301855455497589674877445048911624930284918010471136923549626385298557663979586584230794281668205259758328276002496650124023798363030886176821794993254329643646850746609461066025710017254539355903779267488939394819423929980666595835284366451960573215863948112100338403844779557400808859246308668481928055758419460934392465844157753041732252486758483298502088894139558563056985967923396071247984004155032213965821308478126823040037582183311287918433250444195205992817555107046983304233572006076368774485048153482407932509008693273863347572769042480362536482729250089116334028800971287296835475262166073735152548303781466135803056572328199026568912191320498340765739667348680425823489719855734026036066672257122216417974539173477799512069641008665942570248673753403524881363689930609930535671219643325739636761827075576723052460737117075159493656378250791889577624660875691374535122236429208959377453073907409190912905236483042823817133867984565044026760745220191252080300567932653076483878391333561340462505139932267953044169100433257398518697554055468324705070710549051783609073529571868681467957329042201534040820705174644474377811175699226319272132192120333332974563579461817909353187642861374334245221932406591537624533940456666759267277875069982811771768591823315280922990809195169143004131365381004887214058274985101201758832106924376910766217265618066683193203565284028983110605434141794436056868276328577055019642801600618267652072369747242165114410820116350859758747581141201363290218170054798750670154549467438974036986225929191055637167938836691666865614305961304339830321791858314317413079662406855460911042681661799354233601009385673699909247741108245361505390668734648354187609047172706660727924775106138065505511940754320628566048732170045025705670842280173762794268397605331443864839644952670763346244703822195167665767371999695430697316062531114543326614498600854643903264368533221122456931993300414703868232123446622105561215439041739003258463126699548565301336855359889540565818613853870078954003728083245638156414867046578300074348461748355352006498060564221964228493062233697651470360412869803549589092953536936462041669016566672585702481242624331821606328867569280842887346887027948291572200934763567566708477068964383682731360620673200696550818457665362950189248263935007899169261069305618199738025572937536680221798427568393626534729473365548715946520896377419761212098157745980277301781098501873127542067714769034161429551800917742451801500829660770627980443565925665442597544327245068734352390805719120154578184645410595818047394022339442636744639446379474425934568697771624450996911231447603513168154194904892949323948427262236653311167275066708357836912102855453467553888773638331696568754402035127105362583758756012300984941516809733929457654670993153472306783099486223735488555938897112211048746453011195679175862755940866387407190911054220803683833864282695182761356093360175564032309437938570608047794345772632713955763754814274734519237695944037779188681722025057203170113540053854301060229159119517169125604860586583542094366940226684067702051450373659098831837217531455167113561365574008964238600501143358340213182941522457113649082549108048607615608393617639678295562597694996182741616532255475293684352962806279998817536302019481370637160358886454072772533159778111929338392480832603551992455528411395368789707800433581850317780048442509115668109184132176468675716951830410186143806111561807411540049898879837568346782743585552731875387801792014382566067783123263036515949213028754350857868496771748787808361948351350305626320135675036324477517022982771738889243504036870169369945333501538921075869574079004414556708588144315668205674346161300398735229353953673707504012432867833416069093126070213372984014258736215164857436589734483414585651383754183781091640777323814392858762802350090937228362369102671343306991207325133545921224998015229254580402505580429167733887879826026691541448039605625174115464244227919676115006336553561601374853510202096251820823191884131445004012822516837885272465368730876218643324374632772960003360694789805242933371659547095333252071748119054983433286145244429602131154505989700884704789851629225857202616722327889509632541110948025441128524048289929536037587350851483368928977869503072154389425601311444117922444624084349072360370375522115544466465324554461291993929210841317104970539183823598117407594744862047469678628557620143396631568526046130531898148909469009242127066325967718010370500283222549475907781963751380190876382030222187009509432021949661421792922587747793521311293786849859341582538519857941627448031114739272413314741940297628855358467061038802118735316925259356713624284756282150013208697106764517935374049955438520181041761301865821444060399151201227114458770203908957777873494479744800402690374814801733657295566865067892304417590971531139631578910603646262200368874302882262178490630071167931414201844361923918519277853661423713555048291459864347217000135601670873521983471832587991893035797883855740432479517127422108053016464613258447752382638569376896169517006238011205385096307943452306835551007086140058782556068352759153009073747728461440901144394212918612144197413619221362317017812443281429982469929548140374062496314182394836489355526136843882079033354534295567294850287000231600455841509796182680223915520018677123301743927050720058998634692178342594845268179272480079299941248567216950006825882854791891753111066169356382378724933186405713896205146901131674470962141973866384517389589524907660635234141715422212565053899565816918394993324197005037379680442458478930265114808593198697827475355260293883889887470690343400439510328994669823812743085731820718360763343829535130230256345836656799616211720473516243897583318072867736233558917744282996129746674687144404949123808594568234624128172412621942929795029133172806216694830380126202460690801937355648308766212315483264681472828072229060089794408054631748936844810094374112012302790885320399376094699276654320189027092055881172133570096684784194544791699902148566888889318443270857554858042339236068291718479461561059259096582500210394270094976504128922402407858761998752442247771164296245502769218360647308108943456320183020464820158969219347645593565147403024502523568606054097226455017501485870688481750166401412633671067965504487320933731581642898541999164982555943377329875664431375933449200366619642955960336558583116284086752548034303989345741485397319432194911283458609757006073366641062845200728059459961868562772462010318511741257718578617222506140973525565325347595266325509614860742205738890315126961769345904692627163113929719867383753800144132971044325865121517432614197669224654398575386114910931865366399570729111985923647087048800073624860941904385068420304801179395522966464549009170581928527279851859430159229422064224191716900944330809346675926053298684940668693739039505396664730400790761251583941928580151282146853373802487181925434716874285511520277097818359031126366755700160786159306791831669555029395215959681154446082442261431732708923416704539882962651985214227155046863911789889507241598786028109530486228960374516011199726385443405097250093370085849552499392804604099376045536263132130151726669533896334575640403027359415626243552927277837825822051749901014394590699772532277216523338845052644873824720437366811350743488723631620090272402617493463548225419214452892510330235224602360073806132937797777189999830847645080969580032865677540008257295997891831553572299710252336883876691302431159080110030402671501385244060052776966440683746916078045563971114576579261212357891458353617519263209449196557428207201343895024981683507712951257419568204979758966249677459628011663762038683029645561228169047486079910639436861757151020144622856752083299149651686119356936324615330313818977076426312404392460282516068860918401965471381055705616664603192963850735010291304914091355371942124122673454547182365979429681746026627981163052811726086082428882428825463605630771133375170273944876620983620563771905529892991843186842638616151070556159/100000000000000000000000000000000000000000000000000000000000000000000000000000000000000000000000000000000000000000000000000000000000000000000000000000000000000000000000000000000000000000000000000000000000000000000000000000000000000000000000000000000000000000000000000000000000000000000000000000000000000000000000000000000000000000000000000000000000000000000000000000000000000000000000000000000000000000000000000000000000000000000000000000000000000000000000000000000000000000000000000000000000000000000000000000000000000000000000000000000000000000000000000000000000000000000000000000000000000000000000000000000000000000000000000000000000000000000000000000000000000000000000000000000000000000000000000000000000000000000000000000000000000000000000000000000000000000000000000000000000000000000000000000000000000000000000000000000000000000000000000000000000000000000000000000000000000000000000000000000000000000000000000000000000000000000000000000000000000000000000000000000000000000000000000000000000000000000000000000000000000000000000000000000000000000000000000000000000000000000000000000000000000000000000000000000000000000000000000000000000000000000000000000000000000000000000000000000000000000000000000000000000000000000000000000000000000000000000000000000000000000000000000000000000000000000000000000000000000000000000000000000000000000000000000000000000000000000000000000000000000000000000000000000000000000000000000000000000000000000000000000000000000000000000000000000000000000000000000000000000000000000000000000000000000000000000000000000000000000000000000000000000000000000000000000000000000000000000000000000000000000000000000000000000000000000000000000000000000000000000000000000000000000000000000000000000000000000000000000000000000000000000000000000000000000000000000000000000000000000000000000000000000000000000000000000000000000000000000000000000000000000000000000000000000000000000000000000000000000000000000000000000000000000000000000000000000000000000000000000000000000000000000000000000000000000000000000000000000000000000000000000000000000000000000000000000000000000000000000000000000000000000000000000000000000000000000000000000000000000000000000000000000000000000000000000000000000000000000000000000000000000000000000000000000000000000000000000000000000000000000000000000000000000000000000000000000000000000000000000000000000000000000000000000000000000000000000000000000000000000000000000000000000000000000000000000000000000000000000000000000000000000000000000000000000000000000000000000000000000000000000000000000000000000000000000000000000000000000000000000000000000000000000000000000000000000000000000000000000000000000000000000000000000000000000000000000000000000000000000000000000000000000000000000000000000000000000000000000000000000000000000000000000000000000000000000000000000000000000000000000000000000000000000000000000000000000000000000000000000000000000000000000000000000000000000000000000000000000000000000000000000000000000000000000000000000000000000000000000000000000000000000000000000000000000000000000000000000000000000000000000000000000000000000000000000000000000000000000000000000000000000000000000000000000000000000000000000000000000000000000000000000000000000000000000000000000000000000000000000000000000000000000000000000000000000000000000000000000000000000000000000000000000000000000000000000000000000000000000000000000000000000000000000000000000000000000000000000000000000000000000000000000000000000000000000000000000000000000000000000000000000000000000000000000000000000000000000000000000000000000000000000000000000000000000000000000000000000000000000000000000000000000000000000000000000000000000000000000000000000000000000000000000000000000000000000000000000000000000000000000000000000000000000000000000000000000000000000000000000000000000000000000000000000000000000000000000000000000000000000000000000000000000000000000000000000000000000000000000000000000000000000000000000000000000000000000000000000000000000000000000000000000000000000000000000000000000000000000000000000000000000000000000000000000000000000000000000000000000000000000000000000000000000000000000000000000000000000000000000000000000000000000000000000000000000000000000000000000000000000000000000000000000000000000000000000000000000000000000000000000000000000000000000000000000000000000000000000000000000000000000000000000000000000000000000000000000000000000000000000000000000000000000000000000000000000000000000000000000000000000000000000000000000000000000000000000000000000000000000000000000000000000000000000000000000000000000000000000000000000000000000000000000000000000000000000000000000000000000000000000000000000000000000000000000000000000000000000000000000000000000000000000000000000000000000000000000000000000000000000000000000000000000000000000000000000000000000000000000000000000000000000000000000000000000000000000000000000000000000000000000000000000000000000000000000000000000000000000000000000000000000000000000000000000000000000000000000000000000000000000000000000000000000000000000000000000000000000000000000000000000000000000000000000000000000000000000000000000000000000000000000000000000000000000000000000000000000000000000000000000000000000000000000000000000000000000000000000000000000000000000000000000000000000000000000000000000000000000000000000000000000000000000000000000000000000000000000000000000000000000000000000000000000000000000000000000000000000000000000000000000000000000000000000000000000000000000000000000000000000000000000000000000000000000000000000000000000000000000000000000000000000000000000000000000000000000000000000000000000000000000000000000000000000000000000000000000000000000000000000000000000000000000000000000000000000000000000000000000000000000000000000000000000000000000000000000000000000000000000000000000000000000000000000000000000000000000000000000000000000000000000000000000000000000000000000000000000000000000000000000000000000000000000000000000000000000000000000000000000000000000000000000000000000000000000000000000000000000000000000000000000000000000000000000000000000000000000000000000000000000000000000000000000000000000000000000000000000000000000000000000000000000000000000000000000000000000000000000000000000000000000000000000000000000000000000000000000000000000000000000000000000000000000000000000000000000000000000000000000000000000000000000000000000000000000000000000000000000000000000000000000000000000000000000000000000000000000000000000000000000000000000000000000000000000000000000000000000000000000000000000000000000000000000000000000000000000000000000000000000000000000000000000000000000000000000000000000000000000000000000000000000000000000000000000000000000000000000000000000000000000000000000000000000000000000000000000000000000000000000000000000000000000000000000000000000000000000000000000000000000000000000000000000000000000000000000000000000000000000000000000000000000000000000000000000000000000000000000000000000000000000000000000000000000000000000000000000000000000000000000000000000000000000000000000000000000000000000000000000000000000000000000000000000000000000000000000000000000000000000000000000000000000000000000000000000000000000000000000000000000000000000000000000000000000000000000000000000000000000000000000000000000000000000000000000000000000000000000000000000000000000000000000000000000000000000000000000000000000000000000000000000000000000000000000000000000000000000000000000000000000000000000000000000000000000000000000000000000000000000000000000000000000000000000000000000000000000000000000000000000000000000000000000000000000000000000000000000000000000000000000000000000000000000000000000000000000000000000000000000000000000000000000000000000000000000000000000000000000000000000000000000000000000000000000000000000000000000000000000000000000000000000000000000000000000000000000000000000000000000000000000000000000000000000000000000000000000000000000000000000000000000000000000000000000000000000000000000000000000000000000000000000000000000000000000000000000000000000000000000000000000000000000000000000000000000000000000000000000000000000000000000000000000000000000000000000000000000000000000000000000000000000000000000000000000000000000000000000000000000000000000000000000000000000000000000000000000000000000000000000000000000000000000000000000000000000000000000000000000000000000000000000000000000000000000000000000000000000000000000000000000000000000000000000000000000000000000000000000000000000000000000000000000000000000000000000000000000000000000000000000000000000000000000000000000000000000000000000000000000000000000000000000000000000000000000000000000000000000000000000000000000000000000000000000000000000000000000000000000000000000000000000000000000000000000000000000000000000000000000000000000000000000000000000000000000000000000000000000000000000000000000000000000000000000000000000000000000000000000000000000000000000000000000000000000000000000000000000000000000000000000000000000000000000000000000000000000000000000000000000000000000000000000000000000000000000000000000000000000000000000000000000000000000000000000000000000000000000000000000000000000000000000000000000000000000000000000000000000000000000000000000000000000000000000000000000000000000000000000000000000000000000000000000000000000), 62992205569108162317932129080367832048506564873624817964448236859878486335021370031003749253290437988660042956428850181390283964386054382830351029361515708053733847572977563093356350717593906237324342253031008407274489759363299476713608615622894792597245860416291260578862641515254828436504340719716137085151500116995282661998912392019313890017559413096485099638898278261553537657186716598308437791078706897907723110188268372283153686913331536336716239791627098120237413422938772287842781884781143502260660358909558799218633347488865871228147629409094151744034273327495910003145624664151511693423756415312313423178043611607573399203368388400632664944559538367980875642482525468629866728790776432355796852316750785919666812184679689235842421547695378296112638469572298915561933044594647391016297639266810777287603418683311935813710984556136513102299602034149037286336749109945728991394039015856771624681170275533300565693241510517224610832096470557103028704203632681533281142822880386005543516901591275028805379332960327136948851786623404863391801781613734982389841092315867075765552772516368465167374467464581999744932577442695117249684076797897809771447602247609448648288907406371484629418850668950147950884674967213255356529366649150259519160249457201407639145136379963967793342106986752753628554361875286692507511643441961414069547620634013240765299967820633468704202891574600479839914843900972723830489799471094287344529397750702656759300297736889206464931003344903286208138854324674691597768752911300067678961521851151814740003753635362646367483986168676480293075380896850436737030850085899322309533312478012240164933225931363490831874590200496341190259291444840235584373715711355323777503751480725183329051780763578047535415075665867320129685041918256915722621339744278198370591591160429321324835912496630801601722101624248847218422676756394164229645839582008182473638743600684889776884697631854391339582033678055396403680826939356333070373011089310551598253584321272801907816841271760411823369121813472066767803966682925210364988724014113444776970543340739535018310593353092942922510099046312227242192771184304976348008497736638830460675974116432264877922935575080941819510157661499116107401592877770116807219035979515568481688918430142298630543317959376409855729760645380677771906958418779128696509608913327930411423182535265655707834687035110924947994162061903235778423349181366150447114234682321597214519727731548680818232277413266461818839667360541091728546411118093521900991839526968516017896431349623168048323979291982237431473065928753649648391044687846945599764812751795890900872935878301368700056905336593762525251230867908459845876970778912488851324361679260598818042890161197808165416243424904983609723203849286688998776342679475057388812377092941541771211541500974308132779046530066463322775876751417674993846909702678335710182062374089451881159933921983616603596182195593298318115657839417788744474041925963782987310572562270164636421826480306568126721272455796314300188949039058749907472042829768686659525046004431566786867147719811650273397847865207958285655144990145270814618243279566694580572006509768859636078646934248580383381949130774455952552389609632267964897877212552853614952007377276257380967101214083055069772571985882171650411856488662120185883211480453958260087599431211242459786440437271584460809165299573813458549630566255739188175930941220228749990395767136434840789734643091990699289828053028431326048905852426017122627543344274147484401230385422048700388090853002637274066645647323005037344592532914813069478626316298053512905837731108502691738279491492928640545187356035382306804693379913828060524234776981265973812437795641720122326403629792070370979667433830492182264323222324558327388440982949706640509874104457817528937928333310524888246942649796760697831104180882822047420923990328510078007187015305729498796938233296113743086239406668807363071864076428410736713741699262936841694061129315089989885847922136893358550705282472943978878844622435376471430431615254913459821514663183980411463777377850928987735688076590822895340276118811125115153582126568139404622843574396662685430200784726602394793022059064708712658051436056600974581902293871458551932765518973804751428518591695050815491145887394790227009270713777318368691833319471680507704813155775773693723865658188151271269030039491669121356344975394596929110074435633848870889601197727532862288108445959597681641946370012616311426302456861839423907655980435714311429445267190439900080967749834262978428652230185802199375956510557620609145811708741421833745857779931966660779633239191425727191384417073021346795443806111561807411540049898879837568346782743585552731875387801792014382566067783123263036515949213028754350857868496771748787808361948351350305626320135675036324477517022982771738889243504036870169369945333501538921075869574079004414556708588144315668205674346161300398735229353953673707504012432867833416069093126070213372984014258736215164857436589734483414585651383754183781091640777323814392858762802350090937228362369102671343306991207325133545921224998015229254580402505580429167733887879826026691541448039605625174115464244227919676115006336553561601374853510202096251820823191884131445004012822516837885272465368730876218643324374632772960003360694789805242933371659547095333252071748119054983433286145244429602131154505989700884704789851629225857202616722327889509632541110948025441128524048289929536037587350851483368928977869503072154389425601311444117922444624084349072360370375522115544466465324554461291993929210841317104970539183823598117407594744862047469678628557620143396631568526046130531898148909469009242127066325967718010370500283222549475907781963751380190876382030222187009509432021949661421792922587747793521311293786849859341582538519857941627448031114739272413314741940297628855358467061038802118735316925259356713624284756282150013208697106764517935374049955438520181041761301865821444060399151201227114458770203908957777873494479744800402690374814801733657295566865067892304417590971531139631578910603646262200368874302882262178490630071167931414201844361923918519277853661423713555048291459864347217000135601670873521983471832587991893035797883855740432479517127422108053016464613258447752382638569376896169517006238011205385096307943452306835551007086140058782556068352759153009073747728461440901144394212918612144197413619221362317017812443281429982469929548140374062496314182394836489355526136843882079033354534295567294850287000231600455841509796182680223915520018677123301743927050720058998634692178342594845268179272480079299941248567216950006825882854791891753111066169356382378724933186405713896205146901131674470962141973866384517389589524907660635234141715422212565053899565816918394993324197005037379680442458478930265114808593198697827475355260293883889887470690343400439510328994669823812743085731820718360763343829535130230256345836656799616211720473516243897583318072867736233558917744282996129746674687144404949123808594568234624128172412621942929795029133172806216694830380126202460690801937355648308766212315483264681472828072229060089794408054631748936844810094374112012302790885320399376094699276654320189027092055881172133570096684784194544791699902148566888889318443270857554858042339236068291718479461561059259096582500210394270094976504128922402407858761998752442247771164296245502769218360647308108943456320183020464820158969219347645593565147403024502523568606054097226455017501485870688481750166401412633671067965504487320933731581642898541999164982555943377329875664431375933449200366619642955960336558583116284086752548034303989345741485397319432194911283458609757006073366641062845200728059459961868562772462010318511741257718578617222506140973525565325347595266325509614860742205738890315126961769345904692627163113929719867383753800144132971044325865121517432614197669224654398575386114910931865366399570729111985923647087048800073624860941904385068420304801179395522966464549009170581928527279851859430159229422064224191716900944330809346675926053298684940668693739039505396664730400790761251583941928580151282146853373802487181925434716874285511520277097818359031126366755700160786159306791831669555029395215959681154446082442261431732708923416704539882962651985214227155046863911789889507241598786028109530486228960374516011199726385443405097250093370085849552499392804604099376045536263132130151726669533896334575640403027359415626243552927277837825822051749901014394590699772532277216523338845052644873824720437366811350743488723631620090272402617493463548225419214452892510330235224602360073806132937797777189999830847645080969580032865677540008257295997891831553572299710252336883876691302431159080110030402671501385244060052776966440683746916078045563971114576579261212357891458353617519263209449196557428207201343895024981683507712951257419568204979758966249677459628011663762038683029645561228169047486079910639436861757151020144622856752083299149651686119356936324615330313818977076426312404392460282516068860918401965471381055705616664603192963850735010291304914091355371942124122673454547182365979429681746026627981163052811726086082428882428825463605630771133375170273944876620983620563771905529892991843186842638616151070556159/100000000000000000000000000000000000000000000000000000000000000000000000000000000000000000000000000000000000000000000000000000000000000000000000000000000000000000000000000000000000000000000000000000000000000000000000000000000000000000000000000000000000000000000000000000000000000000000000000000000000000000000000000000000000000000000000000000000000000000000000000000000000000000000000000000000000000000000000000000000000000000000000000000000000000000000000000000000000000000000000000000000000000000000000000000000000000000000000000000000000000000000000000000000000000000000000000000000000000000000000000000000000000000000000000000000000000000000000000000000000000000000000000000000000000000000000000000000000000000000000000000000000000000000000000000000000000000000000000000000000000000000000000000000000000000000000000000000000000000000000000000000000000000000000000000000000000000000000000000000000000000000000000000000000000000000000000000000000000000000000000000000000000000000000000000000000000000000000000000000000000000000000000000000000000000000000000000000000000000000000000000000000000000000000000000000000000000000000000000000000000000000000000000000000000000000000000000000000000000000000000000000000000000000000000000000000000000000000000000000000000000000000000000000000000000000000000000000000000000000000000000000000000000000000000000000000000000000000000000000000000000000000000000000000000000000000000000000000000000000000000000000000000000000000000000000000000000000000000000000000000000000000000000000000000000000000000000000000000000000000000000000000000000000000000000000000000000000000000000000000000000000000000000000000000000000000000000000000000000000000000000000000000000000000000000000000000000000000000000000000000000000000000000000000000000000000000000000000000000000000000000000000000000000000000000000000000000000000000000000000000000000000000000000000000000000000000000000000000000000000000000000000000000000000000000000000000000000000000000000000000000000000000000000000000000000000000000000000000000000000000000000000000000000000000000000000000000000000000000000000000000000000000000000000000000000000000000000000000000000000000000000000000000000000000000000000000000000000000000000000000000000000000000000000000000000000000000000000000000000000000000000000000000000000000000000000000000000000000000000000000000000000000000000000000000000000000000000000000000000000000000000000000000000000000000000000000000000000000000000000000000000000000000000000000000000000000000000000000000000000000000000000000000000000000000000000000000000000000000000000000000000000000000000000000000000000000000000000000000000000000000000000000000000000000000000000000000000000000000000000000000000000000000000000000000000000000000000000000000000000000000000000000000000000000000000000000000000000000000000000000000000000000000000000000000000000000000000000000000000000000000000000000000000000000000000000000000000000000000000000000000000000000000000000000000000000000000000000000000000000000000000000000000000000000000000000000000000000000000000000000000000000000000000000000000000000000000000000000000000000000000000000000000000000000000000000000000000000000000000000000000000000000000000000000000000000000000000000000000000000000000000000000000000000000000000000000000000000000000000000000000000000000000000000000000000000000000000000000000000000000000000000000000000000000000000000000000000000000000000000000000000000000000000000000000000000000000000000000000000000000000000000000000000000000000000000000000000000000000000000000000000000000000000000000000000000000000000000000000000000000000000000000000000000000000000000000000000000000000000000000000000000000000000000000000000000000000000000000000000000000000000000000000000000000000000000000000000000000000000000000000000000000000000000000000000000000000000000000000000000000000000000000000000000000000000000000000000000000000000000000000000000000000000000000000000000000000000000000000000000000000000000000000000000000000000000000000000000000000000000000000000000000000000000000000000000000000000000000000000000000000000000000000000000000000000000000000000000000000000000000000000000000000000000000000000000000000000000000000000000000000000000000000000000000000000000000000000000000000000000000000000000000000000000000000000000000000000000000000000000000000000000000000000000000000000000000000000000000000000000000000000000000000000000000000000000000000000000000000000000000000000000000000000000000000000000000000000000000000000000000000000000000000000000000000000000000000000000000000000000000000000000000000000000000000000000000000000000000000000000000000000000000000000000000000000000000000000000000000000000000000000000000000000000000000000000000000000000000000000000000000000000000000000000000000000000000000000000000000000000000000000000000000000000000000000000000000000000000000000000000000000000000000000000000000000000000000000000000000000000000000000000000000000000000000000000000000000000000000000000000000000000000000000000000000000000000000000000000000000000000000000000000000000000000000000000000000000000000000000000000000000000000000000000000000000000000000000000000000000000000000000000000000000000000000000000000000000000000000000000000000000000000000000000000000000000000000000000000000000000000000000000000000000000000000000000000000000000000000000000000000000000000000000000000000000000000000000000000000000000000000000000000000000000000000000000000000000000000000000000000000000000000000000000000000000000000000000000000000000000000000000000000000000000000000000000000000000000000000000000000000000000000000000000000000000000000000000000000000000000000000000000000000000000000000000000000000000000000000000000000000000000000000000000000000000000000000000000000000000000000000000000000000000000000000000000000000000000000000000000000000000000000000000000000000000000000000000000000000000000000000000000000000000000000000000000000000000000000000000000000000000000000000000000000000000000000000000000000000000000000000000000000000000000000000000000000000000000000000000000000000000000000000000000000000000000000000000000000000000000000000000000000000000000000000000000000000000000000000000000000000000000000000000000000000000000000000000000000000000000000000000000000000000000000000000000000000000000000000000000000000000000000000000000000000000000000000000000000000000000000000000000000000000000000000000000000000000000000000000000000000000000000000000000000000000000000000000000000000000000000000000000000000000000000000000000000000000000000000000000000000000000000000000000000000000000000000000000000000000000000000000000000000000000000000000000000000000000000000000000000000000000000000000000000000000000000000000000000000000000000000000000000000000000000000000000000000000000000000000000000000000000000000000000000000000000000000000000000000000000000000000000000000000000000000000000000000000000000000000000000000000000000000000000000000000000000000000000000000000000000000000000000000000000000000000000000000000000000000000000000000000000000000000000000000000000000000000000000000000000000000000000000000000000000000000000000000000000000000000000000000000000000000000000000000000000000000000000000000000000000000000000000000000000000000000000000000000000000000000000000000000000000000000000000000000000000000000000000000000000000000000000000000000000000000000000000000000000000000000000000000000000000000000000000000000000000000000000000000000000000000000000000000000000000000000000000000000000000000000000000000000000000000000000000000000000000000000000000000000000000000000000000000000000000000000000000000000000000000000000000000000000000000000000000000000000000000000000000000000000000000000000000000000000000000000000000000000000000000000000000000000000000000000000000000000000000000000000000000000000000000000000000000000000000000000000000000000000000000000000000000000000000000000000000000000000000000000000000000000000000000000000000000000000000000000000000000000000000000000000000000000000000000000000000000000000000000000000000000000000000000000000000000000000000000000000000000000000000000000000000000000000000000000000000000000000000000000000000000000000000000000000000000000000000000000000000000000000000000000000000000000000000000000000000000000000000000000000000000000000000000000000000000000000000000000000000000000000000000000000000000000000000000000000000000000000000000000000000000000000000000000000000000000000000000000000000000000000000000000000000000000000000000000000000000000000000000000000000000000000000000000000000000000000000000000000000000000000000000000000000000000000000000000000000000000000000000000000000000000000000000000000000000000000000000000000000000000000000000000000000000000000000000000000000000000000000000000000000000000000000000000000000000000000000000000000000000000000000000000000000000000000000000000000000000000000000000000000000000000000000000000000000000000000000000000000000000000000000000000000000000000000000000000000000000000000000000000000000000000000000000000000000000000000000000000000000000000000000000000000000000000000000000000000000000000000000000000000000000000000000000000000000000000000000000000000000000000000000000000000000000000000000000000000000000000,
      656673859477638015142386057443121284455827857489354762986739036606074778164240700087661216550406786827206138408862779385287971326978064129570459507389758446343331296794795164404422794575085582705173958350366581699890863755928074644349740446010751218422037302559253296609667339113476278127047733971410378889369791932827161532188567039823337026176736525469747522926385497841947580332450842463817367297575304160135556240493337688053227556697574091232036966331745199575854246993823330712230898346692447569193273838942537291997244032879360128933011888356779813768333291828368134366886860403146534172740960227038710542399277182051145153332153537439668992888327011127016239771666957994245056912394882025731247755772458456956311491452639330536695455348992801699696425971875790183799120220203002553433627069198423086712560375534017065020996497134121348139561291221463522465607131595733323622856998441547747111286918480599809456675009942142844585951727847574889530283187378602576354916531894697644117173656920591159206922929511922485111251573649081703778205638063386729641887772977937400866353135097597997673713408470030489399141440795250982168237436572497384009072423895104136204494329637218652329510959924691539045708226224616220885195449757800253988502216797221419872401621777000117932421238075289145767053964529893099891384805818369489613385561877817524890296758262172779052581744511095374146245120028065436584495953483296426361371980845817096926602754789747416471693350589414933492619545345716170707131751444583517819728706146923430130379786171241121158145159202176592654876760891174866590403978981048327226806533432962379618898141062186924794133282327541030049467013727148714626095885222166822988650230043229701533561517454306457384482719069017223506774945644723343664949942845227729167052443148328447488992400516729798644137014323234809806038921557971562686949261576591662067870798890349659571413384348178657826343842964837770741186851302846755955695591593632018052712970424171287021136943994592315023705149483550088089190857778119067101707696422648060149190342839213406730639417691434862864492784067616801669981417209315066948153193972291541043680526443129553133291447254869908335663262168922174539388696273698154607340081895848647757096002674117568377813871113341391960538484281488940967745095385499135050244319073772442330511952759100435184845850970811953853388125016762260394860040062767109272200105396108093770178968023917758485269898646086081639721044080507315867345118727156732681511646043968649869907827086518170528777795401246869454377002885119684182921485157183384292182978536382508935631209899749598769981143062078380930164212044612873962881436319076274995353970683205423833204000569722466333344267296444838292508331369392401922792944884637793028544885213644195331282888208175501815383665495959435326850342912639868055073238983310499635178468736516563642015714686851180447580054134538743885450700853573173935914635859769713333179934864620054086038791905357120470415218126012910312549158005862027632913034149351355356426197629404329085635495962508808411454787492906425689887582742232624065042136524266058341318617223545869860269142811904613556213093323522435960129117272230919246426886060610002551269466264518258646710552007839915085275023625795767049401500093984440360810170126082754375638709292016273437631486556819524756528763694427532140360719149868851436456753876473405308524915797505931075018375578427728682768804240405330576338255081946560780690074741835178785489588628418863075110784080666683441330923782499324993356292655127553241479084131753120358101087897878747280229326066648173397321144250631195663228486878009409736371947748196517686393637051879406483015768137738552944629301104967528864700291684811607927661372016957039553081732895645219136988163061358545861789919189010109266198927303486255560922441638663948149421369331215327378563729339789529652715975054340480903956898123452275949828270551390982854113014544436660224151370193799163753787523721980491745934621606641097523050569406839836523895340832690307842153984849050118786517191143202313254634077150531575800291792295252207709411887350412758851778470096191702379209337046901055620764678016393430631972863878505665052704045945662491028725416374640687016779797174657963565328236531629083153758687319786931513940186814417577614432479031774227376952085610094742369838682075469255280035746469152591777180144106660847773901871166380973145407952465196391638673818961009668560911615558663051699411918931684465539918047833255151335006861622950304041760359449707907862229779990590117481044600001164758483360348699927064492772912998788090633907/1000000000000000000000000000000000000000000000000000000000000000000000000000000000000000000000000000000000000000000000000000000000000000000000000000000000000000000000000000000000000000000000000000000000000000000000000000000000000000000000000000000000000000000000000000000000000000000000000000000000000000000000000000000000000000000000000000000000000000000000000000000000000000000000000000000000000000000000000000000000000000000000000000000000000000000000000000000000000000000000000000000000000000000000000000000000000000000000000000000000000000000000000000000000000000000000000000000000000000000000000000000000000000000000000000000000000000000000000000000000000000000000000000000000000000000000000000000000000000000000000000000000000000000000000000000000000000000000000000000000000000000000000000000000000000000000000000000000000000000000000000000000000000000000000000000000000000000000000000000000000000000000000000000000000000000000000000000000000000000000000000000000000000000000000000000000000000000000000000000000000000000000000000000000000000000000000000000000000000000000000000000000000000000000000000000000000000000000000000000000000000000000000000000000000000000000000000000000000000000000000000000000000000000000000000000000000000000000000000000000000000000000000000000000000000000000000000000000000000000000000000000000000000000000000000000000000000000000000000000000000000000000000000000000000000000000000000000000000000000000000000000000000000000000000000000000000000000000000000000000000000000000000000000000000000000000000000000000000000000000000000000000000000000000000000000000000000000000000000000000000000000000000000000000000000000000000000000000000000000000000000000000000000000000000000000000000000000000000000000000000000000000000000000000000000000000000000000000000000000000000000000000000000000000000000000000000000000000000000000000000000000000000000000000000000000000000000000000000000000000000000000000000000000000000000000000000000000000000000000000000000000000000000000000000000000000000000000000000000000000000000000000000000000000000000000000000000000000000000000000000000000000000000000000000000000000000000000000000000000000000000000000000000000000000000000000000000000000000000000000000000000000000000000000000000000000000000000000000000000000000000000000000000000000000000000000000000000000000000000000000000000000000000000000000000000000000000000000000000000000000000000000000000000000000000000000000000000000000000000000000000000000000000000000000000000000000000000000000000000000000000000000000000000000000000000000000000000000000000000000000000000000000000000000000000000000000000000000000000000000000000000000000000000000000000000000000000000000000000000000000000000000000000000000000000000000000000000000000000000000000000000000000000000000000000000000000000000000000000000000000000000000000000000000000000000000000000000000000000000000000000000000000000000000000000000000000000000000000000000000000000000000000000000000000000000000000000000000000000000000000000000000000000000000000000000000000000000000000000000000000000000000000000000000000000000000000000000000000000000000000000000000000000000000000000000000000000000000000000000000000000000000000000000000000000000000000000000000000000000000000000000000000000000000000000000000000000000000000000000000000000000000000000000000000000000000000000000000000000000000000000000000000000000000000000000000000000000000000000000000000000000000000000000000000000000000000000000000000000000000000000000000000000000000000000000000000000000000000000000000000000000000000000000000000000000000000000000000000000000000000000000000000000000000000000000000000000000000000000000000000000000000000000000000000000000000000000000000000000000000000000000000000000000000000000000000000000000000000000000000000000000000000000000000000000000000000000000000000000000000000000000000000000000000000000000000000000000000000000000000000000000000000000000000000000000000000000000000000000000000000000000000000000000000000000000000000000000000000000000000000000000000000000000000000000000000000000000000000000000000000000000000000000000000000000000000000000000000000000000000000000000000000000000000000000000000000000000000000000000000000000000000000000000000000000000000000000000000000000000000000000000000000000000000000000000000000000000000000000000000000000000000000000000000000000000000000000000000000000000000000000000000000000000000000000000000000000000000000000000000000000000000000000000000000000000000000000000000000000000000000000000000000000000000000000000000000000000000000000000000000000000000000000000000000000000000000000000000000⟩ := by
    rw [show (12 : ℕ) = 11 + 1 from rfl, sir_spike_calcs_succ, h11]
    norm_num [euler_update, flow_rates, SIRState.n_pop, spike_contact_rate,
      step_and_go_back, SIRState.mk.injEq]
  refine ⟨by rw [h12]; norm_num, ?_⟩
  rw [show (13 : ℕ) = 12 + 1 from rfl, sir_spike_calcs_succ, h12]
  norm_num [euler_update, flow_rates, SIRState.n_pop, spike_contact_rate,
    step_and_go_back]

/-! ## Notebook 15: susceptibility and infectiousness adjustments

The three constructions of increased susceptibility (and the three of
increased infectiousness) differ only in library calls
(`set_flow_adjustments`, `add_infectiousness_adjustments`,
`set_mixing_matrix`); the stratification machinery itself lives in the
external `summer` library. -/

/-- The state of the two-group stratified SIR model of notebook 15. -/
structure StratifiedState where
  susceptible_1 : ℚ
  susceptible_2 : ℚ
  infectious_1 : ℚ
  infectious_2 : ℚ
  recovered_1 : ℚ
  recovered_2 : ℚ
deriving DecidableEq

/-- A two-by-two mixing matrix; entry `g12` scales the contribution of
group 2 infectious persons to the force of infection of group 1. -/
structure MixingMatrix where
  g11 : ℚ
  g12 : ℚ
  g21 : ℚ
  g22 : ℚ
deriving DecidableEq

/-- The matrix of `build_suscept_adjusted_matrix` in notebook 15:
`[[scaler, scaler], [1.0, 1.0]]` (group 1 row multiplied by the
susceptibility value). -/
def build_suscept_adjusted_matrix (scaler : ℚ) : MixingMatrix :=
  { g11 := scaler, g12 := scaler, g21 := 1, g22 := 1 }

/-- The matrix of `build_infectious_adjusted_matrix` in notebook 15:
`[[scaler, 1.0], [scaler, 1.0]]` (group 1 column multiplied by the
scaler). -/
def build_infectious_adjusted_matrix (scaler : ℚ) : MixingMatrix :=
  { g11 := scaler, g12 := 1, g21 := scaler, g22 := 1 }

/-- The dummy mixing matrix `[[1.0, 1.0], [1.0, 1.0]]` of notebook 15,
which is also the effective matrix when no mixing matrix is set. -/
def dummy_matrix : MixingMatrix :=
  { g11 := 1, g12 := 1, g21 := 1, g22 := 1 }

/-- Modelled from the spec: the stratified infection machinery of the
external `summer` library is not part of this repository.  Per the spec
(glossary entries for mixing matrix, force of infection and stratification,
and the notebook 15 text: the force of infection of a group is the vector
of infectious counts multiplied by the matrix row of the group),
for the density-dependent infection flow of `build_sir_model` the force of
infection of group i is the contact rate times the matrix row applied to
the infectiousness-adjusted infectious counts, and the infection flow of
group i is additionally scaled by the flow adjustment of that group.  One
explicit-Euler step of the resulting six-compartment system. -/
def stratified_update (risk_per_contact infectious_period : ℚ)
    (m : MixingMatrix) (flow_adj_1 flow_adj_2 inf_adj_1 inf_adj_2
    time_step : ℚ) (s : StratifiedState) : StratifiedState :=
  let weighted_1 := inf_adj_1 * s.infectious_1
  let weighted_2 := inf_adj_2 * s.infectious_2
  let foi_1 := risk_per_contact * (m.g11 * weighted_1 + m.g12 * weighted_2)
  let foi_2 := risk_per_contact * (m.g21 * weighted_1 + m.g22 * weighted_2)
  let infection_1 := flow_adj_1 * foi_1 * s.susceptible_1
  let infection_2 := flow_adj_2 * foi_2 * s.susceptible_2
  let recovery_1 := 1 / infectious_period * s.infectious_1
  let recovery_2 := 1 / infectious_period * s.infectious_2
  { susceptible_1 := s.susceptible_1 - infection_1 * time_step
    susceptible_2 := s.susceptible_2 - infection_2 * time_step
    infectious_1 := s.infectious_1 + (infection_1 - recovery_1) * time_step
    infectious_2 := s.infectious_2 + (infection_2 - recovery_2) * time_step
    recovered_1 := s.recovered_1 + recovery_1 * time_step
    recovered_2 := s.recovered_2 + recovery_2 * time_step }

/-- Iterated explicit-Euler steps of the stratified model from a common
initial state (all six constructions of notebook 15 use the same
population split, so they start from the same state). -/
def stratified_calcs (risk_per_contact infectious_period : ℚ)
    (m : MixingMatrix) (flow_adj_1 flow_adj_2 inf_adj_1 inf_adj_2
    time_step : ℚ) (init : StratifiedState) : ℕ → StratifiedState
  | 0 => init
  | n + 1 =>
      stratified_update risk_per_contact infectious_period m flow_adj_1
        flow_adj_2 inf_adj_1 inf_adj_2 time_step
        (stratified_calcs risk_per_contact infectious_period m flow_adj_1
          flow_adj_2 inf_adj_1 inf_adj_2 time_step init n)

/-- The derived output `prevalence` of notebook 15: the sum of the
infectious compartments. -/
def prevalence (s : StratifiedState) : ℚ :=
  s.infectious_1 + s.infectious_2

/-- `suscept_model` of notebook 15: flow adjustment `transmission_scaler`
for group 1, no mixing matrix. -/
def suscept_model_calcs (scaler risk_per_contact infectious_period
    time_step : ℚ) (init : StratifiedState) : ℕ → StratifiedState :=
  stratified_calcs risk_per_contact infectious_period dummy_matrix scaler 1
    1 1 time_step init

/-- `suscept_matrix_model` of notebook 15: no flow adjustment, mixing
matrix with the group 1 row scaled. -/
def suscept_matrix_model_calcs (scaler risk_per_contact infectious_period
    time_step : ℚ) (init : StratifiedState) : ℕ → StratifiedState :=
  stratified_calcs risk_per_contact infectious_period
    (build_suscept_adjusted_matrix scaler) 1 1 1 1 time_step init

/-- `suscept_matrix_adjust_model` of notebook 15: flow adjustment for
group 1 together with the dummy mixing matrix. -/
def suscept_matrix_adjust_model_calcs (scaler risk_per_contact
    infectious_period time_step : ℚ) (init : StratifiedState) :
    ℕ → StratifiedState :=
  stratified_calcs risk_per_contact infectious_period dummy_matrix scaler 1
    1 1 time_step init

/-- `infectious_model` of notebook 15: infectiousness adjustment for
group 1, no mixing matrix. -/
def infectious_model_calcs (scaler risk_per_contact infectious_period
    time_step : ℚ) (init : StratifiedState) : ℕ → StratifiedState :=
  stratified_calcs risk_per_contact infectious_period dummy_matrix 1 1
    scaler 1 time_step init

/-- `infectious_matrix_model` of notebook 15: no adjustment, mixing matrix
with the group 1 column scaled. -/
def infectious_matrix_model_calcs (scaler risk_per_contact infectious_period
    time_step : ℚ) (init : StratifiedState) : ℕ → StratifiedState :=
  stratified_calcs risk_per_contact infectious_period
    (build_infectious_adjusted_matrix scaler) 1 1 1 1 time_step init

/-- `infectious_matrix_adjust_model` of notebook 15: infectiousness
adjustment for group 1 together with the dummy mixing matrix. -/
def infectious_matrix_adjust_model_calcs (scaler risk_per_contact
    infectious_period time_step : ℚ) (init : StratifiedState) :
    ℕ → StratifiedState :=
  stratified_calcs risk_per_contact infectious_period dummy_matrix 1 1
    scaler 1 time_step init

theorem suscept_step_agree (scaler risk_per_contact infectious_period
    time_step : ℚ) (s : StratifiedState) :
    stratified_update risk_per_contact infectious_period
        (build_suscept_adjusted_matrix scaler) 1 1 1 1 time_step s =
      stratified_update risk_per_contact infectious_period dummy_matrix
        scaler 1 1 1 time_step s := by
  simp only [stratified_update, build_suscept_adjusted_matrix, dummy_matrix,
    StratifiedState.mk.injEq]
  refine ⟨?_, ?_, ?_, ?_, ?_, ?_⟩ <;> ring_nf

theorem infectious_step_agree (scaler risk_per_contact infectious_period
    time_step : ℚ) (s : StratifiedState) :
    stratified_update risk_per_contact infectious_period
        (build_infectious_adjusted_matrix scaler) 1 1 1 1 time_step s =
      stratified_update risk_per_contact infectious_period dummy_matrix 1 1
        scaler 1 time_step s := by
  simp only [stratified_update, build_infectious_adjusted_matrix,
    dummy_matrix, StratifiedState.mk.injEq]
  refine ⟨?_, ?_, ?_, ?_, ?_, ?_⟩ <;> ring_nf

theorem suscept_trajectories_agree (scaler risk_per_contact
    infectious_period time_step : ℚ) (init : StratifiedState) (n : ℕ) :
    suscept_matrix_model_calcs scaler risk_per_contact infectious_period
        time_step init n =
      suscept_model_calcs scaler risk_per_contact infectious_period
        time_step init n := by
  induction n with
  | zero => rfl
  | succ n ih =>
      simp only [suscept_matrix_model_calcs, suscept_model_calcs,
        stratified_calcs] at ih ⊢
      rw [ih, suscept_step_agree]

theorem infectious_trajectories_agree (scaler risk_per_contact
    infectious_period time_step : ℚ) (init : StratifiedState) (n : ℕ) :
    infectious_matrix_model_calcs scaler risk_per_contact infectious_period
        time_step init n =
      infectious_model_calcs scaler risk_per_contact infectious_period
        time_step init n := by
  induction n with
  | zero => rfl
  | succ n ih =>
      simp only [infectious_matrix_model_calcs, infectious_model_calcs,
        stratified_calcs] at ih ⊢
      rw [ih, infectious_step_agree]

/-- Claim C8: the three constructions of increased susceptibility in
notebook 15 (flow adjustment without a matrix, row-scaled mixing matrix,
and flow adjustment with the dummy matrix), and likewise the three
constructions of increased infectiousness (infectiousness adjustment
without a matrix, column-scaled mixing matrix, and infectiousness
adjustment with the dummy matrix), produce prevalence trajectories that
agree pairwise within 1e-8 at every output time, so the asserted condition
of both assertion sites holds (the differences are exactly zero in exact
arithmetic). -/
theorem notebook15_equivalences (scaler risk_per_contact infectious_period
    time_step : ℚ) (init : StratifiedState) (n : ℕ) :
    |prevalence (suscept_model_calcs scaler risk_per_contact
          infectious_period time_step init n) -
        prevalence (suscept_matrix_model_calcs scaler risk_per_contact
          infectious_period time_step init n)| < 1e-8 ∧
      |prevalence (suscept_model_calcs scaler risk_per_contact
          infectious_period time_step init n) -
        prevalence (suscept_matrix_adjust_model_calcs scaler
          risk_per_contact infectious_period time_step init n)| < 1e-8 ∧
      |prevalence (suscept_matrix_model_calcs scaler risk_per_contact
          infectious_period time_step init n) -
        prevalence (suscept_matrix_adjust_model_calcs scaler
          risk_per_contact infectious_period time_step init n)| < 1e-8 ∧
      |prevalence (infectious_model_calcs scaler risk_per_contact
          infectious_period time_step init n) -
        prevalence (infectious_matrix_model_calcs scaler risk_per_contact
          infectious_period time_step init n)| < 1e-8 ∧
      |prevalence (infectious_model_calcs scaler risk_per_contact
          infectious_period time_step init n) -
        prevalence (infectious_matrix_adjust_model_calcs scaler
          risk_per_contact infectious_period time_step init n)| < 1e-8 ∧
      |prevalence (infectious_matrix_model_calcs scaler risk_per_contact
          infectious_period time_step init n) -
        prevalence (infectious_matrix_adjust_model_calcs scaler
          risk_per_contact infectious_period time_step init n)| < 1e-8 := by
  have hadj : suscept_matrix_adjust_model_calcs scaler risk_per_contact
      infectious_period time_step init n =
        suscept_model_calcs scaler risk_per_contact infectious_period
          time_step init n := rfl
  have hadj2 : infectious_matrix_adjust_model_calcs scaler risk_per_contact
      infectious_period time_step init n =
        infectious_model_calcs scaler risk_per_contact infectious_period
          time_step init n := rfl
  rw [suscept_trajectories_agree, infectious_trajectories_agree, hadj, hadj2]
  norm_num

/-! ## Notebook 20: the Metropolis sampler

`sample_with_metropolis` is embedded with its three sources of randomness
and its model evaluation abstracted: `evaluate_acceptance_quantity` (one
full model run per call, the log prior plus log likelihood), the realised
proposals of `propose_parameter_set`, and the realised biased coin flips of
`stats.binom.rvs`.  The field `n_evaluations` counts the calls to
`evaluate_acceptance_quantity`. -/

structure MCMCParameters where
  contact_rate : ℚ
  recovery : ℚ
deriving DecidableEq

/-- One row of the `mcmc_record` data frame of notebook 20. -/
structure MCMCRow where
  contact_rate : ℚ
  recovery : ℚ
  acceptance_quantity : ℚ
  changed_position : ℚ
deriving DecidableEq

/-- The loop state of `sample_with_metropolis`: the current parameter set
and acceptance quantity owned by the loop, the number of
`evaluate_acceptance_quantity` calls made so far, and the record rows
written so far. -/
structure MCMCState where
  current_parameters : MCMCParameters
  current_acceptance_quantity : ℚ
  n_evaluations : ℕ
  mcmc_record : List MCMCRow
deriving DecidableEq

/-- The body of the master loop of `sample_with_metropolis` of notebook 20:
propose, evaluate the acceptance quantity of the proposal (one model run),
accept automatically if the acceptance quantity has not decreased and
otherwise flip the biased coin, update the current state only on
acceptance, and record the current (possibly repeated) state with the
accept flag as `changed_position`. -/
def metropolis_iteration (evaluate_acceptance_quantity :
    MCMCParameters → ℚ) (proposed_parameters : MCMCParameters) (coin : Bool)
    (state : MCMCState) : MCMCState :=
  let proposed_acceptance_quantity :=
    evaluate_acceptance_quantity proposed_parameters
  let accept : ℚ :=
    if state.current_acceptance_quantity ≤ proposed_acceptance_quantity
    then 1 else (if coin then 1 else 0)
  let next_parameters :=
    if accept = 1 then proposed_parameters else state.current_parameters
  let next_acceptance_quantity :=
    if accept = 1 then proposed_acceptance_quantity
    else state.current_acceptance_quantity
  { current_parameters := next_parameters
    current_acceptance_quantity := next_acceptance_quantity
    n_evaluations := state.n_evaluations + 1
    mcmc_record := state.mcmc_record ++
      [{ contact_rate := next_parameters.contact_rate
         recovery := next_parameters.recovery
         acceptance_quantity := next_acceptance_quantity
         changed_position := accept }] }

/-- `sample_with_metropolis` of notebook 20 after a given number of
iterations: the initialisation evaluates the acceptance quantity of the
initial parameters (one model run), then each iteration runs the loop
body on the proposal and coin flip of that iteration. -/
def sample_with_metropolis (evaluate_acceptance_quantity :
    MCMCParameters → ℚ) (proposals : ℕ → MCMCParameters)
    (coins : ℕ → Bool) (initial_parameters : MCMCParameters) :
    ℕ → MCMCState
  | 0 =>
      { current_parameters := initial_parameters
        current_acceptance_quantity :=
          evaluate_acceptance_quantity initial_parameters
        n_evaluations := 1
        mcmc_record := [] }
  | i_run + 1 =>
      metropolis_iteration evaluate_acceptance_quantity (proposals i_run)
        (coins i_run)
        (sample_with_metropolis evaluate_acceptance_quantity proposals coins
          initial_parameters i_run)

/-- Claim C9: each iteration of `sample_with_metropolis` performs exactly
one proposal and one acceptance-quantity evaluation (one model run), so
after n iterations exactly n + 1 evaluations have happened (one for the
initialisation); and when the proposal of an iteration is rejected (its
acceptance quantity decreased and the biased coin came up 0), the current
parameter set and current acceptance quantity carried into the next
iteration are unchanged and the recorded row repeats the previous values
with changed_position = 0. -/
theorem sample_with_metropolis_iteration_invariants
    (evaluate_acceptance_quantity : MCMCParameters → ℚ)
    (proposals : ℕ → MCMCParameters) (coins : ℕ → Bool)
    (initial_parameters : MCMCParameters) (i_run : ℕ) :
    (sample_with_metropolis evaluate_acceptance_quantity proposals coins
          initial_parameters (i_run + 1)).n_evaluations =
        (sample_with_metropolis evaluate_acceptance_quantity proposals coins
          initial_parameters i_run).n_evaluations + 1 ∧
      (sample_with_metropolis evaluate_acceptance_quantity proposals coins
          initial_parameters i_run).n_evaluations = i_run + 1 ∧
      (evaluate_acceptance_quantity (proposals i_run) <
          (sample_with_metropolis evaluate_acceptance_quantity proposals
            coins initial_parameters i_run).current_acceptance_quantity →
        coins i_run = false →
        (sample_with_metropolis evaluate_acceptance_quantity proposals coins
              initial_parameters (i_run + 1)).current_parameters =
            (sample_with_metropolis evaluate_acceptance_quantity proposals
              coins initial_parameters i_run).current_parameters ∧
          (sample_with_metropolis evaluate_acceptance_quantity proposals
              coins initial_parameters
              (i_run + 1)).current_acceptance_quantity =
            (sample_with_metropolis evaluate_acceptance_quantity proposals
              coins initial_parameters
              i_run).current_acceptance_quantity ∧
          (sample_with_metropolis evaluate_acceptance_quantity proposals
              coins initial_parameters (i_run + 1)).mcmc_record =
            (sample_with_metropolis evaluate_acceptance_quantity proposals
                coins initial_parameters i_run).mcmc_record ++
              [{ contact_rate :=
                   (sample_with_metropolis evaluate_acceptance_quantity
                     proposals coins initial_parameters
                     i_run).current_parameters.contact_rate
                 recovery :=
                   (sample_with_metropolis evaluate_acceptance_quantity
                     proposals coins initial_parameters
                     i_run).current_parameters.recovery
                 acceptance_quantity :=
                   (sample_with_metropolis evaluate_acceptance_quantity
                     proposals coins initial_parameters
                     i_run).current_acceptance_quantity
                 changed_position := 0 }]) := by
  refine ⟨rfl, ?_, ?_⟩
  · induction i_run with
    | zero => rfl
    | succ n ih =>
        simpa [sample_with_metropolis, metropolis_iteration] using ih
  · intro hlt hcoin
    have hcond : ¬ ((sample_with_metropolis evaluate_acceptance_quantity
        proposals coins initial_parameters
        i_run).current_acceptance_quantity ≤
          evaluate_acceptance_quantity (proposals i_run)) :=
      not_le.mpr hlt
    simp only [sample_with_metropolis, metropolis_iteration, hcond,
      if_false, hcoin, Bool.false_eq_true, zero_ne_one, ite_false,
      and_self, List.append_cancel_left_eq]

/-- Witness for claim C9: a concrete rejected iteration (the proposed
acceptance quantity 0 is below the current acceptance quantity 1 and the
coin flip is 0): the carried state is unchanged and the recorded row
repeats the previous values with changed_position = 0. -/
theorem sample_with_metropolis_iteration_invariants_witness :
    MCMCParameters.contact_rate ⟨0, 0⟩ <
        (sample_with_metropolis MCMCParameters.contact_rate (fun _ => ⟨0, 0⟩)
          (fun _ => false) ⟨1, 1⟩ 0).current_acceptance_quantity ∧
      (sample_with_metropolis MCMCParameters.contact_rate (fun _ => ⟨0, 0⟩)
            (fun _ => false) ⟨1, 1⟩ 1).current_parameters =
          (sample_with_metropolis MCMCParameters.contact_rate
            (fun _ => ⟨0, 0⟩) (fun _ => false) ⟨1, 1⟩
            0).current_parameters ∧
        (sample_with_metropolis MCMCParameters.contact_rate (fun _ => ⟨0, 0⟩)
            (fun _ => false) ⟨1, 1⟩ 1).current_acceptance_quantity =
          (sample_with_metropolis MCMCParameters.contact_rate
            (fun _ => ⟨0, 0⟩) (fun _ => false) ⟨1, 1⟩
            0).current_acceptance_quantity ∧
        (sample_with_metropolis MCMCParameters.contact_rate (fun _ => ⟨0, 0⟩)
            (fun _ => false) ⟨1, 1⟩ 1).mcmc_record =
          (sample_with_metropolis MCMCParameters.contact_rate
              (fun _ => ⟨0, 0⟩) (fun _ => false) ⟨1, 1⟩ 0).mcmc_record ++
            [{ contact_rate :=
                 (sample_with_metropolis MCMCParameters.contact_rate
                   (fun _ => ⟨0, 0⟩) (fun _ => false) ⟨1, 1⟩
                   0).current_parameters.contact_rate
               recovery :=
                 (sample_with_metropolis MCMCParameters.contact_rate
                   (fun _ => ⟨0, 0⟩) (fun _ => false) ⟨1, 1⟩
                   0).current_parameters.recovery
               acceptance_quantity :=
                 (sample_with_metropolis MCMCParameters.contact_rate
                   (fun _ => ⟨0, 0⟩) (fun _ => false) ⟨1, 1⟩
                   0).current_acceptance_quantity
               changed_position := 0 }] := by
  have hlt : MCMCParameters.contact_rate ⟨0, 0⟩ <
      (sample_with_metropolis MCMCParameters.contact_rate (fun _ => ⟨0, 0⟩)
        (fun _ => false) ⟨1, 1⟩ 0).current_acceptance_quantity := by
    norm_num [sample_with_metropolis]
  exact ⟨hlt,
    (sample_with_metropolis_iteration_invariants MCMCParameters.contact_rate
      (fun _ => ⟨0, 0⟩) (fun _ => false) ⟨1, 1⟩ 0).2.2 hlt rfl⟩

/-! ## The transmission-assumptions notebook: `get_sir_base_structure`

The function computes `suscept_pop = pop - seed`, asserts only
`pop >= 0.` (with the message saying the seed is larger than the
population), and then sets the initial distribution
`{susceptible: suscept_pop, infectious: seed}`.  A failing assert is
embedded as an error result. -/

def get_sir_base_structure (population seed : ℚ) : Except String SIRState :=
  let suscept_pop := population - seed
  if 0 ≤ population then
    Except.ok
      { susceptible := suscept_pop, infectious := seed, recovered := 0 }
  else Except.error "Seed larger than population"

/-- Claim C10: `get_sir_base_structure` only asserts that the total
population is non-negative, despite its assertion message reading that the
seed is larger than the population: for every config with
0 ≤ population < seed, the function raises no error and constructs a model
whose initial susceptible compartment size (population − seed) is
negative. -/
theorem get_sir_base_structure_negative_susceptible (population seed : ℚ)
    (hpop : 0 ≤ population) (hseed : population < seed) :
    get_sir_base_structure population seed =
        Except.ok
          { susceptible := population - seed, infectious := seed,
            recovered := 0 } ∧
      population - seed < 0 := by
  constructor
  · unfold get_sir_base_structure
    rw [if_pos hpop]
  · linarith

/-- Witness for claim C10: population 0 and seed 1 pass the assert and
produce an initial susceptible compartment of −1. -/
theorem get_sir_base_structure_negative_susceptible_witness :
    (0 : ℚ) ≤ 0 ∧ (0 : ℚ) < 1 ∧
      (get_sir_base_structure 0 1 =
          Except.ok
            { susceptible := (0 : ℚ) - 1, infectious := 1,
              recovered := 0 } ∧
        (0 : ℚ) - 1 < 0) :=
  ⟨le_refl 0, by norm_num,
    get_sir_base_structure_negative_susceptible 0 1 (le_refl 0)
      (by norm_num)⟩
